import Mathlib

/-!
Verification of the `api-gateway-ansible` modules (src/library/*.py).

Shallow embedding: each Ansible module's pure decision logic is translated to
Lean functions.  Python dictionaries coming back from AWS are modelled as
structures whose optional keys are `Option` fields (a key is present iff the
field is `some`); a strict dictionary access `d['k']` is `getKey`, which
raises `KeyError` when the key is missing, while `d.get('k')` is a plain
field read.  `module.fail_json` / `fail_json_aws` abort the module and are
modelled as errors, as are uncaught Python exceptions (`ValueError`,
`NameError`, `AttributeError`, `KeyError`, and botocore errors escaping all
handlers).  Mutating SDK calls (create / update / delete / tag / untag) are
collected in a trace by the `Eff` monad; lookup (read-only) calls made by the
`find_*` helpers are reported in a separate `Lookup` list.  The responses of
SDK calls are oracle inputs: each embedded function takes the response AWS
would return for the calls it can make.  Numbers passed to the API are `Int`
(the float parameter `throttle_rate_limit` is only ever compared with `0`,
compared for equality and stringified, so an integral model suffices for the
properties below).
-/

namespace ApiGwAnsible

/-- JSON-Patch operation exactly as the modules build them: an `op`, a `path`,
and for non-`remove` operations a string `value`. -/
structure Patch where
  op : String
  path : String
  value : Option String := none
deriving DecidableEq, Repr

/-- Abnormal terminations of a module run.  `failJson` covers
`module.fail_json(msg=...)` and `module.fail_json_aws(e, msg=...)`; the other
constructors are uncaught Python exceptions escaping the module. -/
inductive Err where
  | failJson (msg : String) : Err
  | valueError (msg : String) : Err
  | nameError (missingName : String) : Err
  | attributeError (msg : String) : Err
  | keyError (key : String) : Err
  | typeError (msg : String) : Err
  | uncaughtClientError (code : String) : Err
  | uncaughtBotoCoreError (msg : String) : Err
deriving DecidableEq, Repr

/-- Response of a single boto3 call: success, a `botocore.exceptions.ClientError`
carrying an error code and a message, or a `BotoCoreError` with a message. -/
inductive SdkResp (α : Type) where
  | ok : α → SdkResp α
  | clientError (code msg : String) : SdkResp α
  | botoCoreError (msg : String) : SdkResp α
deriving DecidableEq, Repr

/-- Mutating SDK calls the modules can issue, with the arguments the wrapped
`backoff_*` helpers actually pass to boto3.  `Option` arguments are sent iff
they are `some`, mirroring the conditional `args[...] = ...` assignments. -/
inductive Call where
  | createApiKey (name : Option String) (enabled generateDistinctId : Bool)
      (description value : Option String)
  | deleteApiKey (id : String)
  | updateApiKey (id : String) (patches : List Patch)
  | createBasePathMapping (domainName basePath : String)
  | deleteBasePathMapping (domainName basePath : String)
  | updateBasePathMapping (domainName basePath : String) (patches : List Patch)
  | createDomainName (domainName : String) (certificateArn certificateName : Option String)
      (securityPolicy : Option String) (tags : Option (List (String × String)))
  | deleteDomainName (domainName : String)
  | updateDomainName (domainName : String) (patches : List Patch)
  | tagResource (arn : String) (tags : List (String × String))
  | untagResource (arn : String) (tagKeys : List String)
  | createRestApi (name : Option String) (cloneFrom description apiKeySource : Option String)
      (binaryMediaTypes : Option (List String)) (endpointConfigurationTypes : Option (List String))
      (minimumCompressionSize : Option Int) (policy version : Option String)
  | deleteRestApi (id : String)
  | updateRestApi (id : String) (patches : List Patch)
  | createUsagePlan (name : String) (apiStages : List (String × String))
      (description : Option String)
      (throttleBurstLimit throttleRateLimit quotaLimit quotaOffset : Option Int)
      (quotaPeriod : Option String)
  | deleteUsagePlan (id : String)
  | updateUsagePlan (id : String) (patches : List Patch)
  | createUsagePlanKey (keyId usagePlanId keyType : String)
  | deleteUsagePlanKey (keyId usagePlanId : String)
  | createVpcLink (name : String) (description : Option String)
      (targetArns : Option (List String))
  | deleteVpcLink (id : String)
  | updateVpcLink (id : String) (patches : List Patch)
deriving DecidableEq, Repr

/-- Read-only SDK calls made by the `find_*` helpers. -/
inductive Lookup where
  | getApiKey (id : String)
  | getApiKeys (nameQuery : String)
  | getRestApi (id : String)
  | getRestApis
  | getUsagePlan (id : String)
  | getUsagePlans
  | getVpcLink (id : String)
  | getVpcLinks
deriving DecidableEq, Repr

/-- Module execution monad: a run either aborts with an `Err` or returns a
value, and in both cases leaves the trace of mutating SDK calls issued so
far. -/
abbrev Eff (α : Type) := ExceptT Err (StateM (List Call)) α

/-- Issue a mutating SDK call (append it to the trace). -/
def emitCall (c : Call) : Eff Unit :=
  ExceptT.lift (modify (fun tr => tr ++ [c]))

/-- Run a module operation with an empty trace: the outcome together with all
mutating calls issued (also when the run aborts). -/
def runEff (x : Eff α) : Except Err α × List Call :=
  (ExceptT.run x).run []

/-- Lift a pure, call-free computation into `Eff`. -/
def liftExcept : Except Err α → Eff α
  | .ok a => pure a
  | .error e => throw e

/-- Strict Python dictionary access `d['k']`: `KeyError` when the key is
absent. -/
def getKey (k : String) : Option α → Except Err α
  | some v => .ok v
  | none => .error (.keyError k)

/-- Embeds the recurring statement pattern
`if x not in ['', None] and x != resource[k]: patches.append(replace)` of the
api_key, base_path_mapping, domain_name and vpc_link modules: nothing when the
desired value is `None` or empty, otherwise a strict dictionary access to the
current value and a `replace` patch when it differs. -/
def replacePatchStrict (path curKey : String) (new cur : Option String) :
    Except Err (List Patch) :=
  match new with
  | some s =>
      if s ≠ "" then do
        let c ← getKey curKey cur
        pure (if s ≠ c then [Patch.mk "replace" path (some s)] else [])
      else pure []
  | none => pure []

/-- Embeds the variant of the pattern above that reads the current value with
`.get` (no `KeyError`): `if x not in ['', None] and x != resource.get(k)`. -/
def replacePatchGet (path : String) (new cur : Option String) : List Patch :=
  match new with
  | some s =>
      if s ≠ "" ∧ some s ≠ cur then [Patch.mk "replace" path (some s)] else []
  | none => []

/-- Python truthiness of an optional string (`None` and `''` are falsy). -/
def truthyStr : Option String → Bool
  | none => false
  | some s => s ≠ ""

/-- Embeds the recurring Python test `x not in ['', None]`. -/
def notBlank (x : Option String) : Bool := truthyStr x

/-- Python `str()` of a boolean. -/
def pyStrBool (b : Bool) : String := if b then "True" else "False"

/-- Last element of a list satisfying `P`; the `for`-loops of the `find_*`
helpers (`if name == l.get('name'): resp = l`) keep the last match. -/
def lastMatch (P : α → Prop) [DecidablePred P] : List α → Option α
  | [] => none
  | x :: t =>
      match lastMatch P t with
      | some y => some y
      | none => if P x then some x else none

/-- Substring test, embedding Python's `pat in msg` on strings. -/
def strContains (msg pat : String) : Bool :=
  (msg.splitOn pat).length ≠ 1

theorem foldl_lastMatch (P : α → Prop) [DecidablePred P] (l : List α) (init : Option α) :
    l.foldl (fun acc x => if P x then some x else acc) init
      = (match lastMatch P l with
         | some y => some y
         | none => init) := by
  induction l generalizing init with
  | nil => rfl
  | cons x t ih =>
      simp only [List.foldl_cons, lastMatch, ih]
      cases lastMatch P t with
      | some y => rfl
      | none => by_cases h : P x <;> simp [h]

/-! ### apigw_api_key -/

/-- Parameters of the `apigw_api_key` module (its `argument_spec`). -/
structure ApiKeyParams where
  name : Option String := none
  id : Option String := none
  description : Option String := none
  value : Option String := none
  enabled : Bool := false
  generate_distinct_id : Bool := false
deriving DecidableEq, Repr

/-- An AWS ApiKey resource as returned by boto3 (keys present iff `some`;
`id` is always present on a real response). -/
structure ApiKey where
  id : String := ""
  name : Option String := none
  description : Option String := none
  enabled : Option Bool := none
  value : Option String := none
deriving DecidableEq, Repr

/-- Embeds `find_api_key`: lookup by `id` via `get_api_key` when the id is
truthy, else by exact name match over `get_api_keys(nameQuery=name)`; a
`ClientError` whose code is `NotFoundException` yields `None`, any other SDK
error is a module failure.  Returns the result together with the read-only
calls issued. -/
def find_api_key (p : ApiKeyParams) (getResp : SdkResp ApiKey)
    (listResp : SdkResp (List ApiKey)) :
    Except Err (Option ApiKey) × List Lookup :=
  match p.id with
  | some keyId =>
      if keyId ≠ "" then
        (match getResp with
         | .ok k => .ok (some k)
         | .clientError code msg =>
             if code = "NotFoundException" then .ok none
             else .error (.failJson ("Error when getting api keys from boto3: " ++ msg))
         | .botoCoreError msg =>
             .error (.failJson ("Error when getting api keys from boto3: " ++ msg)),
         [Lookup.getApiKey keyId])
      else find_api_key_by_name p listResp
  | none => find_api_key_by_name p listResp
where
  /-- Name branch of `find_api_key` (reached when the id parameter is falsy). -/
  find_api_key_by_name (p : ApiKeyParams) (listResp : SdkResp (List ApiKey)) :
      Except Err (Option ApiKey) × List Lookup :=
    match p.name with
    | none => (.error (.failJson "Api key name or id is required"), [])
    | some n =>
        if n = "" then (.error (.failJson "Api key name or id is required"), [])
        else
          (match listResp with
           | .ok items =>
               .ok (items.foldl (fun acc l => if l.name = some n then some l else acc) none)
           | .clientError code msg =>
               if code = "NotFoundException" then .ok none
               else .error (.failJson ("Error when getting api keys from boto3: " ++ msg))
           | .botoCoreError msg =>
               .error (.failJson ("Error when getting api keys from boto3: " ++ msg)),
           [Lookup.getApiKeys n])

/-- Embeds the patch-building block of `ensure_api_key_present` (the body of
its `else` branch up to the `value` immutability check): `replace` patches for
`name`, `description` and `enabled`, then `fail_json` if a set `value` differs
from the stored one.  Current values are strict dictionary accesses. -/
def api_key_patches (p : ApiKeyParams) (key : ApiKey) : Except Err (List Patch) := do
  let ps₁ ← replacePatchStrict "/name" "name" p.name key.name
  let ps₂ ← replacePatchStrict "/description" "description" p.description key.description
  let curEnabled ← getKey "enabled" key.enabled
  let ps₃ :=
    if p.enabled ≠ curEnabled then
      [Patch.mk "replace" "/enabled" (some (pyStrBool p.enabled))]
    else []
  match p.value with
  | some v =>
      if v ≠ "" then do
        let cv ← getKey "value" key.value
        if v ≠ cv then throw (.failJson "Cannot change value after creation")
        else pure (ps₁ ++ ps₂ ++ ps₃)
      else pure (ps₁ ++ ps₂ ++ ps₃)
  | none => pure (ps₁ ++ ps₂ ++ ps₃)

/-- Embeds `ensure_api_key_present`.  `found` is the outcome of the
`find_api_key` call the function starts with; `createResp` / `updateResp` are
the resources AWS would return from `create_api_key` / `update_api_key`.
Returns the `changed` flag and the resource placed in the result.  When the
key is absent and check mode is on, the source skips the create and then runs
`api_key.pop('ResponseMetadata', None)` on `None`, an `AttributeError`. -/
def ensure_api_key_present (p : ApiKeyParams) (check_mode : Bool)
    (found : Except Err (Option ApiKey)) (createResp updateResp : ApiKey) :
    Eff (Bool × ApiKey) := do
  let key? ← liftExcept found
  match key? with
  | none =>
      if truthyStr p.id then
        -- `module.fail_json_aws(e, msg=...)`: the name `e` is unbound here
        throw (.nameError "e")
      else if check_mode then
        -- api_key is still None: `api_key.pop(...)` on `None`
        throw (.attributeError "NoneType object has no attribute pop")
      else do
        emitCall (.createApiKey p.name p.enabled p.generate_distinct_id
          p.description p.value)
        pure (true, createResp)
  | some key => do
      let patches ← liftExcept (api_key_patches p key)
      if patches ≠ [] then
        if check_mode then pure (true, key)
        else do
          emitCall (.updateApiKey key.id patches)
          pure (true, updateResp)
      else pure (false, key)

/-- Embeds `ensure_api_key_absent`: nothing to do when the key is absent,
otherwise delete it (unless check mode) and report `changed`. -/
def ensure_api_key_absent (check_mode : Bool)
    (found : Except Err (Option ApiKey)) : Eff Bool := do
  let key? ← liftExcept found
  match key? with
  | none => pure false
  | some key =>
      if ¬ check_mode then do
        emitCall (.deleteApiKey key.id)
        pure true
      else pure true

/-! ### apigw_base_path_mapping -/

/-- Parameters of the `apigw_base_path_mapping` module. -/
structure BpmParams where
  name : String
  rest_api_id : Option String := none
  rest_api : Option String := none
  base_path : String := "(none)"
  stage : Option String := none
deriving DecidableEq, Repr

/-- An AWS BasePathMapping resource. -/
structure BasePathMapping where
  basePath : Option String := none
  restApiId : Option String := none
  stage : Option String := none
deriving DecidableEq, Repr

/-- Embeds the lookup step of `main` in `apigw_base_path_mapping`:
`base_path_mapping = backoff_get_base_path_mapping(client, name, path)` is
executed before the `try` block, with no exception handler of its own, so any
SDK error — including the `NotFoundException` that `get_base_path_mapping`
raises when the mapping does not exist — escapes the module unhandled. -/
def bpm_main_lookup (getResp : SdkResp BasePathMapping) :
    Except Err BasePathMapping :=
  match getResp with
  | .ok m => .ok m
  | .clientError code _ => .error (.uncaughtClientError code)
  | .botoCoreError msg => .error (.uncaughtBotoCoreError msg)

/-- Embeds `ensure_base_path_mapping_present`.  `bpm?` is the mapping bound in
`main` (`none` for a falsy value); `rest_api_id` is the id resolved in `main`.
When no mapping was found the function executes `raise ValueError('creating!')`
before any of the create logic, so the create branch below it is dead code. -/
def ensure_base_path_mapping_present (p : BpmParams) (check_mode : Bool)
    (bpm? : Option BasePathMapping) (rest_api_id : Option String)
    (updateResp : BasePathMapping) : Eff (Bool × BasePathMapping) := do
  match bpm? with
  | none => throw (.valueError "creating!")
  | some m => do
      let ps₁ ← liftExcept (replacePatchStrict "/restapiId" "restApiId" rest_api_id m.restApiId)
      let ps₂ ←
        -- the stage test is `stage != '' and stage is not None and ...`,
        -- the same predicate in a different order
        liftExcept (replacePatchStrict "/stage" "stage" p.stage m.stage)
      let patches := ps₁ ++ ps₂
      if patches ≠ [] then
        if check_mode then pure (true, m)
        else do
          emitCall (.updateBasePathMapping p.name p.base_path patches)
          pure (true, updateResp)
      else pure (false, m)

/-- Embeds `ensure_base_path_mapping_absent`.  When a mapping exists and check
mode is off, the function calls `backoff_delete_usage_plan_key(client, name,
base_path_mapping['basePath'])`; that name is not defined anywhere in
`apigw_base_path_mapping.py`, so the call raises `NameError`, which the
`(ClientError, BotoCoreError)` handler does not catch. -/
def ensure_base_path_mapping_absent (check_mode : Bool)
    (bpm? : Option BasePathMapping) : Eff Bool := do
  match bpm? with
  | none => pure false
  | some _ =>
      if ¬ check_mode then
        throw (.nameError "backoff_delete_usage_plan_key")
      else pure true

/-! ### apigw_domain_name -/

/-- Parameters of the `apigw_domain_name` module.  Tag dictionaries are
association lists. -/
structure DomainParams where
  name : String
  cert_arn : Option String := none
  cert_name : Option String := none
  security_policy : Option String := none
  tags : Option (List (String × String)) := none
  purge_tags : Bool := false
deriving DecidableEq, Repr

/-- An AWS DomainName resource. -/
structure DomainName where
  certificateArn : Option String := none
  certificateName : Option String := none
  securityPolicy : Option String := none
  tags : Option (List (String × String)) := none
deriving DecidableEq, Repr

/-- Association-list lookup, standing for Python `dict.get`. -/
def alistGet (l : List (String × String)) (k : String) : Option String :=
  (l.find? (fun kv => kv.1 = k)).map (fun kv => kv.2)

/-- Model of the external ansible helper `compare_aws_tags(current, new,
purge_tags)`: tags to set are the desired pairs whose value differs from the
current one (or are missing), keys to unset are current keys absent from the
desired set when purging. -/
def compare_aws_tags (cur new : List (String × String)) (purge : Bool) :
    List (String × String) × List String :=
  (new.filter (fun kv => alistGet cur kv.1 ≠ some kv.2),
   if purge then (cur.filter (fun kv => alistGet new kv.1 = none)).map (fun kv => kv.1) else [])

/-- Embeds the patch-building block of `ensure_domain_name_present` (the body
of its `try`): `replace` patches for `certificateArn` and `certificateName`
(strict dictionary accesses) and for `securityPolicy` (a `.get` access). -/
def domain_name_patches (p : DomainParams) (d : DomainName) : Except Err (List Patch) := do
  let ps₁ ← replacePatchStrict "/certificateArn" "certificateArn" p.cert_arn d.certificateArn
  let ps₂ ← replacePatchStrict "/certificateName" "certificateName" p.cert_name d.certificateName
  let ps₃ := replacePatchGet "/securityPolicy" p.security_policy d.securityPolicy
  pure (ps₁ ++ ps₂ ++ ps₃)

/-- Embeds `ensure_domain_name_present`.  `found` is the result of the initial
`retrieve_domain_name` (its error handling turns `NotFoundException` into
`None`); `refound` is the result of the re-retrieve performed after tag
changes; `region` comes from `get_aws_connection_info`.  Returns the `changed`
flag and the domain placed in the result (`none` for the empty dictionary
returned in the check-mode create path). -/
def ensure_domain_name_present (p : DomainParams) (check_mode : Bool)
    (region : String) (found refound : Option DomainName)
    (createResp updateResp : DomainName) : Eff (Bool × Option DomainName) := do
  if p.cert_arn = none ∧ p.cert_name = none then
    throw (.failJson "Certificate ARN or name is required to create a domain name")
  else do
    let (domain₀, changed₀) ←
      match found with
      | none =>
          if ¬ check_mode then do
            emitCall (.createDomainName p.name
              (if p.cert_arn = none then none else p.cert_arn)
              (if p.cert_arn = none then p.cert_name else none)
              (if notBlank p.security_policy then p.security_policy else none)
              p.tags)
            pure (some createResp, true)
          else pure ((none : Option DomainName), true)
      | some d => pure (some d, false)
    match domain₀ with
    | none =>
        -- check-mode create path: explicit early return with an empty domain
        pure (changed₀, none)
    | some d₀ => do
        let (domain₁, changed₁) ←
          match p.tags with
          | some tags => do
              let arn := "arn:aws:apigateway:" ++ region ++ "::/domainnames/" ++ p.name
              let old_tags := (d₀.tags).getD []
              let (to_tag, to_untag) := compare_aws_tags old_tags tags p.purge_tags
              let changedTag₁ := changed₀ || decide (to_tag ≠ [])
              if to_tag ≠ [] ∧ ¬ check_mode then
                emitCall (.tagResource arn to_tag)
              else pure ()
              let changedTag₂ := changedTag₁ || decide (to_untag ≠ [])
              if to_untag ≠ [] ∧ ¬ check_mode then
                emitCall (.untagResource arn to_untag)
              else pure ()
              if changedTag₂ then pure (refound, changedTag₂)
              else pure (some d₀, changedTag₂)
          | none => pure (some d₀, changed₀)
        match domain₁ with
        | none =>
            -- `domain['certificateArn']` on `None` after a failed re-retrieve
            throw (.typeError "NoneType object is not subscriptable")
        | some d₁ => do
            let patches ← liftExcept (domain_name_patches p d₁)
            if patches ≠ [] then
              if ¬ check_mode then do
                emitCall (.updateDomainName p.name patches)
                pure (true, some updateResp)
              else pure (true, some d₁)
            else pure (changed₁, some d₁)

/-- Embeds `ensure_domain_name_absent`. -/
def ensure_domain_name_absent (p : DomainParams) (check_mode : Bool)
    (found : Option DomainName) : Eff Bool := do
  match found with
  | none => pure false
  | some _ =>
      if ¬ check_mode then do
        emitCall (.deleteDomainName p.name)
        pure true
      else pure true

/-! ### apigw_rest_api -/

/-- Parameters of the `apigw_rest_api` module.  `endpoint_configuration` is
the `types` list of the nested dictionary. -/
structure RestApiParams where
  name : Option String := none
  id : Option String := none
  description : Option String := none
  api_key_source : Option String := none
  binary_media_types : Option (List String) := none
  clone_from : Option String := none
  endpoint_configuration : Option (List String) := none
  minimum_compression_size : Option Int := none
  policy : Option String := none
  version : Option String := none
deriving DecidableEq, Repr

/-- An AWS RestApi resource; `endpointConfigurationTypes` stands for
`rest_api['endpointConfiguration']['types']`. -/
structure RestApi where
  id : String := ""
  name : Option String := none
  description : Option String := none
  apiKeySource : Option String := none
  binaryMediaTypes : Option (List String) := none
  endpointConfigurationTypes : Option (List String) := none
  minimumCompressionSize : Option Int := none
  policy : Option String := none
  version : Option String := none
deriving DecidableEq, Repr

/-- Python `l[0]`: `IndexError` (modelled alongside `KeyError`) on an empty
list. -/
def listIndex0 : List α → Except Err α
  | [] => .error (.keyError "0")
  | x :: _ => .ok x

/-- Embeds the per-field body of the scalar loop of `create_patches` in
`apigw_rest_api`: with `new = module.params.get(f)` and `old =
rest_api.get(key)`, a patch is produced when `new` is not `None` and differs
from `old` — `add` when `old` is `None`, `replace` otherwise. -/
def addReplacePatch [DecidableEq α] (strFn : α → String) (key : String)
    (new old : Option α) : List Patch :=
  match new with
  | none => []
  | some v =>
      if some v ≠ old then
        match old with
        | none => [Patch.mk "add" ("/" ++ key) (some (strFn v))]
        | some o =>
            if o ≠ v then [Patch.mk "replace" ("/" ++ key) (some (strFn v))] else []
      else []

/-- Embeds `create_patches` of `apigw_rest_api`: the endpoint-configuration
patch (strict accesses to `rest_api['endpointConfiguration']['types'][0]`),
the `binary_media_types` update refusal, then the scalar fields in source
order. -/
def rest_api_create_patches (p : RestApiParams) (api : RestApi) :
    Except Err (List Patch) := do
  let ecTypes ← getKey "endpointConfiguration" api.endpointConfigurationTypes
  let old0 ← listIndex0 ecTypes
  let epPatches ←
    match p.endpoint_configuration with
    | none => pure ([] : List Patch)
    | some newTypes => do
        let new0 ← listIndex0 newTypes
        pure (if new0 ≠ old0 then
          [Patch.mk "replace" ("/endpointConfiguration/types/" ++ old0) (some new0)]
        else [])
  match p.binary_media_types with
  | some bmt =>
      if some bmt ≠ api.binaryMediaTypes then
        throw (.failJson "This module does not yet support updating binary_media_types")
      else pure ()
  | none => pure ()
  pure (epPatches
    ++ addReplacePatch id "name" p.name api.name
    ++ addReplacePatch id "description" p.description api.description
    ++ addReplacePatch id "apiKeySource" p.api_key_source api.apiKeySource
    ++ addReplacePatch toString "minimumCompressionSize" p.minimum_compression_size
        api.minimumCompressionSize
    ++ addReplacePatch id "policy" p.policy api.policy
    ++ addReplacePatch id "version" p.version api.version)

/-- Embeds `find_rest_api`.  With `other` set (the `clone_from` lookup) the
listing is searched for a name-or-id match; else a truthy `id` parameter is
resolved by `get_rest_api`, else an exact name match over the listing; a
`NotFoundException` (matched as a substring of the error message) yields
`None`, other SDK errors are module failures. -/
def find_rest_api (p : RestApiParams) (other : Option String)
    (getResp : SdkResp RestApi) (listResp : SdkResp (List RestApi)) :
    Except Err (Option RestApi) × List Lookup :=
  match other with
  | some o =>
      if o ≠ "" then
        (match listResp with
         | .ok items =>
             .ok (items.foldl
               (fun acc l => if l.name = some o ∨ l.id = o then some l else acc) none)
         | .clientError _ msg =>
             if strContains msg "NotFoundException" then .ok none
             else .error (.failJson ("Error when getting rest api from boto3: " ++ msg))
         | .botoCoreError msg =>
             .error (.failJson ("Error when getting api rest api boto3: " ++ msg)),
         [Lookup.getRestApis])
      else find_rest_api_main p getResp listResp
  | none => find_rest_api_main p getResp listResp
where
  /-- Branches of `find_rest_api` taken when `other` is falsy. -/
  find_rest_api_main (p : RestApiParams) (getResp : SdkResp RestApi)
      (listResp : SdkResp (List RestApi)) :
      Except Err (Option RestApi) × List Lookup :=
    if truthyStr p.id then
      (match getResp with
       | .ok api => .ok (some api)
       | .clientError _ msg =>
           if strContains msg "NotFoundException" then .ok none
           else .error (.failJson ("Error when getting rest api from boto3: " ++ msg))
       | .botoCoreError msg =>
           .error (.failJson ("Error when getting api rest api boto3: " ++ msg)),
       [Lookup.getRestApi (p.id.getD "")])
    else
      match p.name with
      | none => (.error (.failJson "Rest api name or id is required"), [])
      | some n =>
          if n = "" then (.error (.failJson "Rest api name or id is required"), [])
          else
            (match listResp with
             | .ok items =>
                 .ok (items.foldl (fun acc l => if l.name = some n then some l else acc) none)
             | .clientError _ msg =>
                 if strContains msg "NotFoundException" then .ok none
                 else .error (.failJson ("Error when getting rest api from boto3: " ++ msg))
             | .botoCoreError msg =>
                 .error (.failJson ("Error when getting api rest api boto3: " ++ msg)),
             [Lookup.getRestApis])

/-- Embeds `create_rest_api`: the create arguments are the `name`, a
`cloneFrom` id resolved through `find_rest_api` when `clone_from` is truthy,
and every non-`None` optional parameter. -/
def create_rest_api (p : RestApiParams) (cloneGetResp : SdkResp RestApi)
    (cloneListResp : SdkResp (List RestApi)) (createResp : RestApi) :
    Eff RestApi := do
  let cloneFrom ←
    match p.clone_from with
    | some c =>
        if c ≠ "" then do
          let orig ← liftExcept (find_rest_api p (some c) cloneGetResp cloneListResp).1
          match orig with
          | none => throw (.failJson "Could not find clone_from api")
          | some api => pure (some api.id)
        else pure none
    | none => pure none
  emitCall (.createRestApi p.name cloneFrom p.description p.api_key_source
    p.binary_media_types p.endpoint_configuration p.minimum_compression_size
    p.policy p.version)
  pure createResp

/-- Embeds `ensure_rest_api_present`.  `found` is the outcome of the initial
`find_rest_api`; in the check-mode create path the source leaves `rest_api`
as `None` and then calls `rest_api.pop('ResponseMetadata', None)`, an
`AttributeError`. -/
def ensure_rest_api_present (p : RestApiParams) (check_mode : Bool)
    (found : Except Err (Option RestApi)) (cloneGetResp : SdkResp RestApi)
    (cloneListResp : SdkResp (List RestApi)) (createResp updateResp : RestApi) :
    Eff (Bool × RestApi) := do
  let api? ← liftExcept found
  match api? with
  | none =>
      if truthyStr p.id then
        -- `module.fail_json_aws(e, msg=...)`: the name `e` is unbound here
        throw (.nameError "e")
      else if check_mode then
        throw (.attributeError "NoneType object has no attribute pop")
      else do
        let api ← create_rest_api p cloneGetResp cloneListResp createResp
        pure (true, api)
  | some api => do
      let patches ← liftExcept (rest_api_create_patches p api)
      if patches ≠ [] then
        if check_mode then pure (true, api)
        else do
          emitCall (.updateRestApi api.id patches)
          pure (true, updateResp)
      else pure (false, api)

/-- Embeds `ensure_rest_api_absent`. -/
def ensure_rest_api_absent (check_mode : Bool)
    (found : Except Err (Option RestApi)) : Eff Bool := do
  let api? ← liftExcept found
  match api? with
  | none => pure false
  | some api =>
      if ¬ check_mode then do
        emitCall (.deleteRestApi api.id)
        pure true
      else pure true

/-! ### apigw_usage_plan -/

/-- Parameters of the `apigw_usage_plan` module with their declared defaults;
`api_stages` entries are `(rest_api_id, stage)` pairs.  The float
`throttle_rate_limit` is modelled as `Int` (only `< 0`, equality and
stringification are applied to it). -/
structure UsagePlanParams where
  name : String
  description : String := ""
  api_stages : List (String × String) := []
  purge_api_stages : Bool := true
  throttle_burst_limit : Int := -1
  throttle_rate_limit : Int := -1
  purge_throttle : Bool := true
  quota_limit : Int := -1
  quota_offset : Int := -1
  quota_period : String := ""
  purge_quota : Bool := true
deriving DecidableEq, Repr

/-- Throttle section of a usage plan. -/
structure Throttle where
  burstLimit : Option Int := none
  rateLimit : Option Int := none
deriving DecidableEq, Repr

/-- Quota section of a usage plan. -/
structure Quota where
  limit : Option Int := none
  offset : Option Int := none
  period : Option String := none
deriving DecidableEq, Repr

/-- An AWS UsagePlan resource; `apiStages` entries are `(apiId, stage)`
pairs. -/
structure UsagePlan where
  id : String := ""
  name : Option String := none
  description : Option String := none
  apiStages : Option (List (String × String)) := none
  throttle : Option Throttle := none
  quota : Option Quota := none
deriving DecidableEq, Repr

/-- Embeds `is_default_value` for the parameters whose `argument_spec` type is
`int` or `float`: the default is any negative value. -/
def is_default_value_int (v : Int) : Bool := v < 0

/-- Embeds `is_default_value` for string parameters: `value in [None, '']`
(the string defaults here are `''`). -/
def is_default_value_str (v : String) : Bool := v = ""

/-- Embeds the inner helper `all_defaults` of `create_patches`: despite its
name it folds the per-parameter default flags with `or`
(`is_default = is_default or is_default_value(p, ...)`), so it is true as soon
as ANY listed parameter is at its default. -/
def all_defaults (flags : List Bool) : Bool :=
  flags.foldl (fun acc b => acc || b) false

/-- Embeds the `"{0}:{1}".format(...)` encoding of an api stage. -/
def format_stage (s : String × String) : String := s.1 ++ ":" ++ s.2

/-- Embeds `create_api_stages_remove_patches`. -/
def create_api_stages_remove_patches (old leave : List String) : List Patch :=
  (old.filter (fun s => !(leave.contains s))).map
    (fun s => Patch.mk "remove" "/apiStages" (some s))

/-- Embeds `patch_field` for an `int`/`float` parameter: when the new value is
not at its default, `add` if the nested current value is absent, `replace` if
it differs. -/
def patch_field_int (key : String) (new : Int) (old : Option Int) : List Patch :=
  if ¬ is_default_value_int new then
    match old with
    | none => [Patch.mk "add" ("/" ++ key) (some (toString new))]
    | some o =>
        if o ≠ new then [Patch.mk "replace" ("/" ++ key) (some (toString new))] else []
  else []

/-- Embeds `patch_field` for a string parameter. -/
def patch_field_str (key : String) (new : String) (old : Option String) : List Patch :=
  if ¬ is_default_value_str new then
    match old with
    | none => [Patch.mk "add" ("/" ++ key) (some new)]
    | some o =>
        if o ≠ new then [Patch.mk "replace" ("/" ++ key) (some new)] else []
  else []

/-- Embeds `create_patches` of `apigw_usage_plan`: api-stage removals, the
`/throttle` and `/quota` section removals (guarded by section presence, the
`purge_*` flags and `all_defaults`), the `patch_field` calls in source order,
and finally api-stage additions. -/
def usage_plan_create_patches (p : UsagePlanParams) (up : UsagePlan) : List Patch :=
  let old_api_stages := (up.apiStages.getD []).map format_stage
  let new_api_stages := p.api_stages.map format_stage
  let removeStages :=
    if up.apiStages.isSome && p.purge_api_stages then
      create_api_stages_remove_patches old_api_stages new_api_stages
    else []
  let removeThrottle :=
    if up.throttle.isSome && p.purge_throttle &&
        all_defaults [is_default_value_int p.throttle_rate_limit,
                      is_default_value_int p.throttle_burst_limit] then
      [Patch.mk "remove" "/throttle" none]
    else []
  let removeQuota :=
    if up.quota.isSome && p.purge_quota &&
        all_defaults [is_default_value_int p.quota_limit,
                      is_default_value_int p.quota_offset,
                      is_default_value_str p.quota_period] then
      [Patch.mk "remove" "/quota" none]
    else []
  let addStages := (new_api_stages.filter (fun s => !(old_api_stages.contains s))).map
    (fun s => Patch.mk "add" "/apiStages" (some s))
  removeStages ++ removeThrottle ++ removeQuota
    ++ patch_field_str "description" p.description up.description
    ++ patch_field_int "quota/limit" p.quota_limit (up.quota.bind (fun q => q.limit))
    ++ patch_field_str "quota/period" p.quota_period (up.quota.bind (fun q => q.period))
    ++ patch_field_int "quota/offset" p.quota_offset (up.quota.bind (fun q => q.offset))
    ++ patch_field_int "throttle/burstLimit" p.throttle_burst_limit
        (up.throttle.bind (fun t => t.burstLimit))
    ++ patch_field_int "throttle/rateLimit" p.throttle_rate_limit
        (up.throttle.bind (fun t => t.rateLimit))
    ++ addStages

/-- Reads `module.params.get('id')` in `apigw_usage_plan`: the key `id` is not
in the argument spec, so this is always `None`. -/
def usage_plan_param_id : Option String := none

/-- Embeds `create_usage_plan`: the create arguments carry every parameter not
at its default, with the nested `throttle`/`quota` dictionaries flattened into
their fields (a section is sent iff at least one of its fields is `some`). -/
def create_usage_plan_call (p : UsagePlanParams) : Call :=
  .createUsagePlan p.name p.api_stages
    (if ¬ is_default_value_str p.description then some p.description else none)
    (if ¬ is_default_value_int p.throttle_burst_limit then some p.throttle_burst_limit else none)
    (if ¬ is_default_value_int p.throttle_rate_limit then some p.throttle_rate_limit else none)
    (if ¬ is_default_value_int p.quota_limit then some p.quota_limit else none)
    (if ¬ is_default_value_int p.quota_offset then some p.quota_offset else none)
    (if ¬ is_default_value_str p.quota_period then some p.quota_period else none)

/-- Embeds `find_usage_plan`: the id branch is unreachable (see
`usage_plan_param_id`), so the plan is resolved by exact name match over
`get_usage_plans`; a `NotFoundException` (substring of the message) yields
`None`, other SDK errors are module failures. -/
def find_usage_plan (p : UsagePlanParams) (listResp : SdkResp (List UsagePlan)) :
    Except Err (Option UsagePlan) × List Lookup :=
  if p.name = "" then
    (.error (.failJson "Usage plan name or id is required"), [])
  else
    (match listResp with
     | .ok items =>
         .ok (items.foldl (fun acc l => if l.name = some p.name then some l else acc) none)
     | .clientError _ msg =>
         if strContains msg "NotFoundException" then .ok none
         else .error (.failJson ("Error when getting usage plans from boto3: " ++ msg))
     | .botoCoreError msg =>
         .error (.failJson ("Error when getting usage plans from boto3: " ++ msg)),
     [Lookup.getUsagePlans])

/-- Embeds `ensure_usage_plan_present`.  In the check-mode create path the
source leaves `usage_plan` as `None` and then calls
`usage_plan.pop('ResponseMetadata', None)`, an `AttributeError`. -/
def ensure_usage_plan_present (p : UsagePlanParams) (check_mode : Bool)
    (found : Except Err (Option UsagePlan)) (createResp updateResp : UsagePlan) :
    Eff (Bool × UsagePlan) := do
  let up? ← liftExcept found
  match up? with
  | none =>
      if truthyStr usage_plan_param_id then
        throw (.nameError "e")
      else if check_mode then
        throw (.attributeError "NoneType object has no attribute pop")
      else do
        emitCall (create_usage_plan_call p)
        pure (true, createResp)
  | some up =>
      let patches := usage_plan_create_patches p up
      if patches ≠ [] then
        if check_mode then pure (true, up)
        else do
          emitCall (.updateUsagePlan up.id patches)
          pure (true, updateResp)
      else pure (false, up)

/-- Embeds `ensure_usage_plan_absent`: before deleting, every api stage of the
plan is removed through an update (AWS requires it). -/
def ensure_usage_plan_absent (check_mode : Bool)
    (found : Except Err (Option UsagePlan)) : Eff Bool := do
  let up? ← liftExcept found
  match up? with
  | none => pure false
  | some up =>
      if ¬ check_mode then do
        (match up.apiStages with
         | some stages =>
             let patches := create_api_stages_remove_patches (stages.map format_stage) []
             if patches ≠ [] then emitCall (.updateUsagePlan up.id patches)
             else pure ()
         | none => pure ())
        emitCall (.deleteUsagePlan up.id)
        pure true
      else pure true

/-! ### apigw_usage_plan_key -/

/-- Parameters of the `apigw_usage_plan_key` module. -/
structure UsagePlanKeyParams where
  api_key_id : Option String := none
  api_key : Option String := none
  usage_plan_id : Option String := none
  usage_plan : Option String := none
  key_type : String := "API_KEY"
deriving DecidableEq, Repr

/-- An AWS UsagePlanKey resource. -/
structure UsagePlanKey where
  id : String := ""
  name : Option String := none
  type : Option String := none
deriving DecidableEq, Repr

/-- Embeds `backoff_get_usage_plan_key`, whose try/except turns a
`NotFoundException` into `None`; in its other error branches the code refers
to `module`, a name not defined at module scope there, so those branches raise
`NameError` instead of failing cleanly. -/
def backoff_get_usage_plan_key (getResp : SdkResp UsagePlanKey) :
    Except Err (Option UsagePlanKey) :=
  match getResp with
  | .ok k => .ok (some k)
  | .clientError code _ =>
      if code = "NotFoundException" then .ok none
      else .error (.nameError "module")
  | .botoCoreError _ => .error (.nameError "module")

/-- Embeds `ensure_usage_plan_key_present`.  In the check-mode create path
the source leaves `usage_plan_key` as `None` and then calls
`usage_plan_key.pop('ResponseMetadata', None)`, an `AttributeError`. -/
def ensure_usage_plan_key_present (check_mode : Bool)
    (api_key_id usage_plan_id key_type : String)
    (getResp : SdkResp UsagePlanKey) (createResp : UsagePlanKey) :
    Eff (Bool × UsagePlanKey) := do
  let k? ← liftExcept (backoff_get_usage_plan_key getResp)
  match k? with
  | none =>
      if check_mode then
        throw (.attributeError "NoneType object has no attribute pop")
      else do
        emitCall (.createUsagePlanKey api_key_id usage_plan_id key_type)
        pure (true, createResp)
  | some k => pure (false, k)

/-- Embeds `ensure_usage_plan_key_absent`. -/
def ensure_usage_plan_key_absent (check_mode : Bool)
    (api_key_id usage_plan_id : String) (getResp : SdkResp UsagePlanKey) :
    Eff Bool := do
  let k? ← liftExcept (backoff_get_usage_plan_key getResp)
  match k? with
  | none => pure false
  | some _ =>
      if ¬ check_mode then do
        emitCall (.deleteUsagePlanKey api_key_id usage_plan_id)
        pure true
      else pure true

/-! ### apigw_vpc_link -/

/-- Parameters of the `apigw_vpc_link` module, exactly its `argument_spec`:
`name`, `description`, `target_arns` and `state` — there is no `vpc_link_id`
parameter. -/
structure VpcLinkParams where
  name : String
  description : Option String := none
  target_arns : Option (List String) := none
deriving DecidableEq, Repr

/-- Names declared in the `argument_spec` of `apigw_vpc_link`. -/
def vpc_link_argument_spec_names : List String :=
  ["name", "description", "target_arns", "state"]

/-- Reads `module.params.get('vpc_link_id')` in `apigw_vpc_link`: the key is
not in the argument spec, so this is always `None`. -/
def vpc_link_param_vpc_link_id : Option String := none

/-- An AWS VpcLink resource. -/
structure VpcLink where
  id : String := ""
  name : Option String := none
  description : Option String := none
  targetArns : Option (List String) := none
  status : Option String := none
deriving DecidableEq, Repr

/-- Embeds `find_vpc_link`: the id branch reads the undeclared `vpc_link_id`
parameter (always `None`), so the link is resolved by exact name match over
`get_vpc_links`; a `NotFoundException` (substring of the message) yields
`None`, other SDK errors are module failures. -/
def find_vpc_link (p : VpcLinkParams) (getResp : SdkResp VpcLink)
    (listResp : SdkResp (List VpcLink)) :
    Except Err (Option VpcLink) × List Lookup :=
  match vpc_link_param_vpc_link_id with
  | some vid =>
      if vid ≠ "" then
        (match getResp with
         | .ok l => .ok (some l)
         | .clientError _ msg =>
             if strContains msg "NotFoundException" then .ok none
             else .error (.failJson ("Error when getting vpc links from boto3: " ++ msg))
         | .botoCoreError msg =>
             .error (.failJson ("Error when getting vpc links from boto3: " ++ msg)),
         [Lookup.getVpcLink vid])
      else find_vpc_link_by_name p listResp
  | none => find_vpc_link_by_name p listResp
where
  /-- Name branch of `find_vpc_link` (always reached, see
  `vpc_link_param_vpc_link_id`). -/
  find_vpc_link_by_name (p : VpcLinkParams) (listResp : SdkResp (List VpcLink)) :
      Except Err (Option VpcLink) × List Lookup :=
    if p.name = "" then
      (.error (.failJson "VPC link name or id is required"), [])
    else
      (match listResp with
       | .ok items =>
           .ok (items.foldl (fun acc l => if l.name = some p.name then some l else acc) none)
       | .clientError _ msg =>
           if strContains msg "NotFoundException" then .ok none
           else .error (.failJson ("Error when getting vpc links from boto3: " ++ msg))
       | .botoCoreError msg =>
           .error (.failJson ("Error when getting vpc links from boto3: " ++ msg)),
       [Lookup.getVpcLinks])

/-- Embeds the patch-building block of `ensure_vpc_link_present`: `replace`
patches for `name` (strict access) and `description` (`.get` access), then
`fail_json` if a set `target_arns` differs from the stored ARNs (a strict
access). -/
def vpc_link_patches (p : VpcLinkParams) (l : VpcLink) : Except Err (List Patch) := do
  let ps₁ ← replacePatchStrict "/name" "name" (some p.name) l.name
  let ps₂ := replacePatchGet "/description" p.description l.description
  match p.target_arns with
  | some ta =>
      if ta ≠ [] then do
        let cur ← getKey "targetArns" l.targetArns
        if ta ≠ cur then throw (.failJson "Cannot change target ARNs after creation")
        else pure (ps₁ ++ ps₂)
      else pure (ps₁ ++ ps₂)
  | none => pure (ps₁ ++ ps₂)

/-- Embeds `ensure_vpc_link_present`, including the final status check
(`fail_json` when the resulting link is `DELETING` or `FAILED`; the status is
a strict access).  In the check-mode create path the source leaves `vpc_link`
as `None` and then calls `vpc_link.pop('ResponseMetadata', None)`, an
`AttributeError`. -/
def ensure_vpc_link_present (p : VpcLinkParams) (check_mode : Bool)
    (found : Except Err (Option VpcLink)) (createResp updateResp : VpcLink) :
    Eff (Bool × VpcLink) := do
  let l? ← liftExcept found
  let (changed, link) ←
    (match l? with
     | none =>
         if truthyStr vpc_link_param_vpc_link_id then
           throw (.nameError "e")
         else if check_mode then
           throw (.attributeError "NoneType object has no attribute pop")
         else do
           emitCall (.createVpcLink p.name p.description p.target_arns)
           pure (true, createResp)
     | some l => do
         let patches ← liftExcept (vpc_link_patches p l)
         if patches ≠ [] then
           if check_mode then pure (true, l)
           else do
             emitCall (.updateVpcLink l.id patches)
             pure (true, updateResp)
         else pure (false, l) : Eff (Bool × VpcLink))
  let st ← liftExcept (getKey "status" link.status)
  if st = "DELETING" ∨ st = "FAILED" then
    throw (.failJson "VPC linnk in bad state")
  else pure (changed, link)

/-- Embeds `ensure_vpc_link_absent`.  When a link is found and check mode is
off, the source evaluates `vpc_link.vpc_link_id` — an attribute access on a
dictionary — which raises `AttributeError` before any delete call; the
`(ClientError, BotoCoreError)` handler does not catch it. -/
def ensure_vpc_link_absent (check_mode : Bool)
    (found : Except Err (Option VpcLink)) : Eff Bool := do
  let l? ← liftExcept found
  match l? with
  | none => pure false
  | some _ =>
      if ¬ check_mode then
        throw (.attributeError "dict object has no attribute vpc_link_id")
      else pure true

/-! ### Concrete inputs used by witnesses -/

/-- Concrete api_key parameters for the witnesses. -/
def apiKeyParamsW : ApiKeyParams :=
  { name := some "testkey5000", description := some "an awesome test", enabled := true }

/-- Concrete existing api key matching `apiKeyParamsW`. -/
def apiKeyW : ApiKey :=
  { id := "key24601", name := some "testkey5000", description := some "an awesome test",
    enabled := some true }

/-- Concrete rest_api parameters for the witnesses. -/
def restApiParamsW : RestApiParams :=
  { name := some "example-api", description := some "example description",
    endpoint_configuration := some ["EDGE"] }

/-- Concrete existing rest api matching `restApiParamsW`. -/
def restApiW : RestApi :=
  { id := "api42", name := some "example-api", description := some "example description",
    endpointConfigurationTypes := some ["EDGE"] }

/-- Concrete base path mapping parameters for the witnesses. -/
def bpmParamsW : BpmParams :=
  { name := "api.example.com", rest_api_id := some "abc123", stage := some "dev" }

/-- Concrete existing base path mapping matching `bpmParamsW`. -/
def bpmW : BasePathMapping :=
  { basePath := some "(none)", restApiId := some "abc123", stage := some "dev" }

/-- Concrete domain_name parameters for the witnesses. -/
def domainParamsW : DomainParams :=
  { name := "d.example.com", cert_arn := some "arn:aws:acm:cert1" }

/-- Concrete existing domain matching `domainParamsW`. -/
def domainW : DomainName := { certificateArn := some "arn:aws:acm:cert1" }

/-- Concrete usage plan parameters for the witnesses. -/
def usagePlanParamsW : UsagePlanParams :=
  { name := "plan5000", description := "a plan", api_stages := [("abc123", "dev")],
    throttle_burst_limit := 300, throttle_rate_limit := 200, quota_limit := 5000,
    quota_offset := 0, quota_period := "MONTH" }

/-- Concrete existing usage plan matching `usagePlanParamsW`. -/
def usagePlanW : UsagePlan :=
  { id := "up123", name := some "plan5000", description := some "a plan",
    apiStages := some [("abc123", "dev")],
    throttle := some (Throttle.mk (some 300) (some 200)),
    quota := some (Quota.mk (some 5000) (some 0) (some "MONTH")) }

/-- Concrete existing usage plan key for the witnesses. -/
def usagePlanKeyW : UsagePlanKey :=
  { id := "key24601", name := some "testkey5000", type := some "API_KEY" }

/-- Concrete api_key parameters attempting to change the key value. -/
def apiKeyValueChangeParamsW : ApiKeyParams :=
  { name := some "testkey5000", value := some "newvalue" }

/-- Concrete existing api key whose stored value differs from
`apiKeyValueChangeParamsW`. -/
def apiKeyValueChangeKeyW : ApiKey :=
  { id := "key24601", name := some "testkey5000", enabled := some false,
    value := some "oldvalue" }

/-- Concrete existing api key whose name differs from `apiKeyParamsW`. -/
def apiKeyRenameKeyW : ApiKey :=
  { id := "key24601", name := some "oldname", description := some "an awesome test",
    enabled := some true }

/-- Concrete vpc_link parameters attempting to change the target ARNs. -/
def vpcLinkTargetChangeParamsW : VpcLinkParams :=
  { name := "mylink", target_arns := some ["arn:aws:elb:new"] }

/-- Concrete existing vpc link whose target ARNs differ from
`vpcLinkTargetChangeParamsW`. -/
def vpcLinkTargetChangeLinkW : VpcLink :=
  { id := "vl123", name := some "mylink", targetArns := some ["arn:aws:elb:old"],
    status := some "AVAILABLE" }

/-- Concrete existing vpc link whose name differs from `vpcLinkParamsW`. -/
def vpcLinkRenameLinkW : VpcLink :=
  { id := "vl123", name := some "oldname", description := some "a link",
    targetArns := some ["arn:aws:elb:nlb1"], status := some "AVAILABLE" }

/-- Concrete domain_name parameters that set a security policy. -/
def domainSecPolicyParamsW : DomainParams :=
  { name := "d.example.com", cert_arn := some "arn:aws:acm:cert1",
    security_policy := some "TLS_1_2" }

/-- Concrete existing domain with no stored security policy. -/
def domainNoSecPolicyW : DomainName := { certificateArn := some "arn:aws:acm:cert1" }

/-- Concrete existing rest api whose name differs from `restApiParamsW`. -/
def restApiRenameW : RestApi :=
  { id := "api42", name := some "oldname", description := some "example description",
    endpointConfigurationTypes := some ["EDGE"] }

/-- Concrete usage plan parameters that set only the throttle burst limit
(the rate limit stays at its default). -/
def usagePlanPartParamsW : UsagePlanParams :=
  { name := "plan5000", throttle_burst_limit := 100 }

/-- Concrete existing usage plan whose stored burst limit already equals the
desired one of `usagePlanPartParamsW`. -/
def usagePlanPartW : UsagePlan :=
  { id := "up123", name := some "plan5000",
    throttle := some (Throttle.mk (some 100) (some 5)) }

/-- The plan of `usagePlanPartW` after an update removed its throttle
section. -/
def usagePlanPartAfterW : UsagePlan := { id := "up123", name := some "plan5000" }

/-- Concrete vpc_link parameters for the witnesses. -/
def vpcLinkParamsW : VpcLinkParams :=
  { name := "mylink", description := some "a link", target_arns := some ["arn:aws:elb:nlb1"] }

/-- Concrete existing vpc link matching `vpcLinkParamsW`. -/
def vpcLinkW : VpcLink :=
  { id := "vl123", name := some "mylink", description := some "a link",
    targetArns := some ["arn:aws:elb:nlb1"], status := some "AVAILABLE" }

/-! ### Helper lemmas

Facts about the patch builders and `ensure_*` operations, shared by the claim
theorems below. -/

theorem replacePatchStrict_nil (path k : String) (new cur : Option String)
    (h : ∀ s, new = some s → s ≠ "" → cur = some s) :
    replacePatchStrict path k new cur = .ok [] := by
  unfold replacePatchStrict
  rcases hn : new with _ | s
  · rfl
  · by_cases hs : s = ""
    · simp [hs, pure, Except.pure]
    · simp [hs, getKey, h s hn hs, bind, Except.bind, pure, Except.pure]

theorem replacePatchGet_nil (path : String) (new cur : Option String)
    (h : ∀ s, new = some s → s ≠ "" → cur = some s) :
    replacePatchGet path new cur = [] := by
  unfold replacePatchGet
  rcases hn : new with _ | s
  · rfl
  · by_cases hs : s = ""
    · simp [hs]
    · simp [hs, h s hn hs]

theorem addReplacePatch_nil [DecidableEq α] (strFn : α → String) (k : String)
    (new old : Option α) (h : ∀ v, new = some v → old = some v) :
    addReplacePatch strFn k new old = [] := by
  unfold addReplacePatch
  rcases hn : new with _ | v
  · rfl
  · simp [h v hn]

theorem patch_field_int_nil (k : String) (new : Int) (old : Option Int)
    (h : is_default_value_int new = true ∨ old = some new) :
    patch_field_int k new old = [] := by
  unfold patch_field_int
  rcases h with h | h <;> simp [h]

theorem patch_field_str_nil (k : String) (new : String) (old : Option String)
    (h : is_default_value_str new = true ∨ old = some new) :
    patch_field_str k new old = [] := by
  unfold patch_field_str
  rcases h with h | h
  · simp [h]
  · by_cases hd : is_default_value_str new <;> simp [hd, h]

theorem filter_not_contains_self (l : List String) :
    l.filter (fun s => !(l.contains s)) = [] := by
  rw [List.filter_eq_nil_iff]
  intro a ha
  simp [List.contains, ha]

theorem api_key_patches_nil (p : ApiKeyParams) (key : ApiKey)
    (h1 : ∀ s, p.name = some s → s ≠ "" → key.name = some s)
    (h2 : ∀ s, p.description = some s → s ≠ "" → key.description = some s)
    (h3 : key.enabled = some p.enabled)
    (h4 : ∀ s, p.value = some s → s ≠ "" → key.value = some s) :
    api_key_patches p key = .ok [] := by
  unfold api_key_patches
  rw [replacePatchStrict_nil _ _ _ _ h1, replacePatchStrict_nil _ _ _ _ h2]
  rcases hpv : p.value with _ | s₃ <;>
    simp only [bind, Except.bind, pure, Except.pure, h3, getKey] <;>
    [skip; by_cases hs : s₃ = ""] <;>
    simp_all [getKey, h4, bind, Except.bind, pure, Except.pure]

theorem ensure_api_key_present_noop (p : ApiKeyParams) (key c u : ApiKey)
    (h1 : ∀ s, p.name = some s → s ≠ "" → key.name = some s)
    (h2 : ∀ s, p.description = some s → s ≠ "" → key.description = some s)
    (h3 : key.enabled = some p.enabled)
    (h4 : ∀ s, p.value = some s → s ≠ "" → key.value = some s) :
    runEff (ensure_api_key_present p false (.ok (some key)) c u) = (.ok (false, key), []) := by
  simp [runEff, ensure_api_key_present, liftExcept, api_key_patches_nil p key h1 h2 h3 h4,
    emitCall, ExceptT.run, ExceptT.lift, bind, ExceptT.bind, ExceptT.bindCont, StateT.run,
    pure, ExceptT.pure, ExceptT.mk, StateT.bind, StateT.pure, modify, modifyGet,
    MonadStateOf.modifyGet, StateT.modifyGet, Functor.map, StateT.map, throw, throwThe,
    MonadExceptOf.throw]

theorem ensure_bpm_present_noop (p : BpmParams) (m u : BasePathMapping)
    (rid : Option String)
    (h1 : ∀ s, rid = some s → s ≠ "" → m.restApiId = some s)
    (h2 : ∀ s, p.stage = some s → s ≠ "" → m.stage = some s) :
    runEff (ensure_base_path_mapping_present p false (some m) rid u) = (.ok (false, m), []) := by
  simp [runEff, ensure_base_path_mapping_present, liftExcept,
    replacePatchStrict_nil "/restapiId" "restApiId" rid m.restApiId h1,
    replacePatchStrict_nil "/stage" "stage" p.stage m.stage h2,
    emitCall, ExceptT.run, ExceptT.lift, bind, ExceptT.bind, ExceptT.bindCont, StateT.run,
    pure, ExceptT.pure, ExceptT.mk, StateT.bind, StateT.pure, modify, modifyGet,
    MonadStateOf.modifyGet, StateT.modifyGet, Functor.map, StateT.map, throw, throwThe,
    MonadExceptOf.throw]

theorem domain_name_patches_nil (p : DomainParams) (d : DomainName)
    (h1 : ∀ s, p.cert_arn = some s → s ≠ "" → d.certificateArn = some s)
    (h2 : ∀ s, p.cert_name = some s → s ≠ "" → d.certificateName = some s)
    (h3 : ∀ s, p.security_policy = some s → s ≠ "" → d.securityPolicy = some s) :
    domain_name_patches p d = .ok [] := by
  unfold domain_name_patches
  rw [replacePatchStrict_nil "/certificateArn" "certificateArn" p.cert_arn d.certificateArn h1,
    replacePatchStrict_nil "/certificateName" "certificateName" p.cert_name d.certificateName h2,
    replacePatchGet_nil "/securityPolicy" p.security_policy d.securityPolicy h3]
  rfl

theorem ensure_domain_name_present_noop (p : DomainParams) (d c u : DomainName)
    (refound : Option DomainName) (region : String)
    (hcert : ¬(p.cert_arn = none ∧ p.cert_name = none))
    (htags : p.tags = none)
    (h1 : ∀ s, p.cert_arn = some s → s ≠ "" → d.certificateArn = some s)
    (h2 : ∀ s, p.cert_name = some s → s ≠ "" → d.certificateName = some s)
    (h3 : ∀ s, p.security_policy = some s → s ≠ "" → d.securityPolicy = some s) :
    runEff (ensure_domain_name_present p false region (some d) refound c u) =
      (.ok (false, some d), []) := by
  simp [runEff, ensure_domain_name_present, liftExcept, hcert, htags,
    domain_name_patches_nil p d h1 h2 h3,
    emitCall, ExceptT.run, ExceptT.lift, bind, ExceptT.bind, ExceptT.bindCont, StateT.run,
    pure, ExceptT.pure, ExceptT.mk, StateT.bind, StateT.pure, modify, modifyGet,
    MonadStateOf.modifyGet, StateT.modifyGet, Functor.map, StateT.map, throw, throwThe,
    MonadExceptOf.throw]

theorem rest_api_patches_nil (p : RestApiParams) (api : RestApi) (t : String)
    (ts : List String)
    (hec : api.endpointConfigurationTypes = some (t :: ts))
    (hep : ∀ l, p.endpoint_configuration = some l → ∃ ts', l = t :: ts')
    (hbmt : ∀ b, p.binary_media_types = some b → api.binaryMediaTypes = some b)
    (hname : ∀ v, p.name = some v → api.name = some v)
    (hdesc : ∀ v, p.description = some v → api.description = some v)
    (haks : ∀ v, p.api_key_source = some v → api.apiKeySource = some v)
    (hmcs : ∀ v : Int, p.minimum_compression_size = some v → api.minimumCompressionSize = some v)
    (hpol : ∀ v, p.policy = some v → api.policy = some v)
    (hver : ∀ v, p.version = some v → api.version = some v) :
    rest_api_create_patches p api = .ok [] := by
  unfold rest_api_create_patches
  rw [hec]
  rcases hpe : p.endpoint_configuration with _ | l
  · rcases hpb : p.binary_media_types with _ | b
    · simp [getKey, listIndex0, bind, Except.bind, pure, Except.pure,
        addReplacePatch_nil id "name" p.name api.name hname,
        addReplacePatch_nil id "description" p.description api.description hdesc,
        addReplacePatch_nil id "apiKeySource" p.api_key_source api.apiKeySource haks,
        addReplacePatch_nil toString "minimumCompressionSize" p.minimum_compression_size
          api.minimumCompressionSize hmcs,
        addReplacePatch_nil id "policy" p.policy api.policy hpol,
        addReplacePatch_nil id "version" p.version api.version hver]
    · simp [hbmt b hpb, getKey, listIndex0, bind, Except.bind, pure, Except.pure,
        addReplacePatch_nil id "name" p.name api.name hname,
        addReplacePatch_nil id "description" p.description api.description hdesc,
        addReplacePatch_nil id "apiKeySource" p.api_key_source api.apiKeySource haks,
        addReplacePatch_nil toString "minimumCompressionSize" p.minimum_compression_size
          api.minimumCompressionSize hmcs,
        addReplacePatch_nil id "policy" p.policy api.policy hpol,
        addReplacePatch_nil id "version" p.version api.version hver]
  · obtain ⟨ts', rfl⟩ := hep l hpe
    rcases hpb : p.binary_media_types with _ | b
    · simp [getKey, listIndex0, bind, Except.bind, pure, Except.pure,
        addReplacePatch_nil id "name" p.name api.name hname,
        addReplacePatch_nil id "description" p.description api.description hdesc,
        addReplacePatch_nil id "apiKeySource" p.api_key_source api.apiKeySource haks,
        addReplacePatch_nil toString "minimumCompressionSize" p.minimum_compression_size
          api.minimumCompressionSize hmcs,
        addReplacePatch_nil id "policy" p.policy api.policy hpol,
        addReplacePatch_nil id "version" p.version api.version hver]
    · simp [hbmt b hpb, getKey, listIndex0, bind, Except.bind, pure, Except.pure,
        addReplacePatch_nil id "name" p.name api.name hname,
        addReplacePatch_nil id "description" p.description api.description hdesc,
        addReplacePatch_nil id "apiKeySource" p.api_key_source api.apiKeySource haks,
        addReplacePatch_nil toString "minimumCompressionSize" p.minimum_compression_size
          api.minimumCompressionSize hmcs,
        addReplacePatch_nil id "policy" p.policy api.policy hpol,
        addReplacePatch_nil id "version" p.version api.version hver]

theorem ensure_rest_api_present_noop (p : RestApiParams) (api c u : RestApi)
    (cg : SdkResp RestApi) (cl : SdkResp (List RestApi)) (t : String) (ts : List String)
    (hec : api.endpointConfigurationTypes = some (t :: ts))
    (hep : ∀ l, p.endpoint_configuration = some l → ∃ ts', l = t :: ts')
    (hbmt : ∀ b, p.binary_media_types = some b → api.binaryMediaTypes = some b)
    (hname : ∀ v, p.name = some v → api.name = some v)
    (hdesc : ∀ v, p.description = some v → api.description = some v)
    (haks : ∀ v, p.api_key_source = some v → api.apiKeySource = some v)
    (hmcs : ∀ v : Int, p.minimum_compression_size = some v → api.minimumCompressionSize = some v)
    (hpol : ∀ v, p.policy = some v → api.policy = some v)
    (hver : ∀ v, p.version = some v → api.version = some v) :
    runEff (ensure_rest_api_present p false (.ok (some api)) cg cl c u) =
      (.ok (false, api), []) := by
  simp [runEff, ensure_rest_api_present, liftExcept,
    rest_api_patches_nil p api t ts hec hep hbmt hname hdesc haks hmcs hpol hver,
    emitCall, ExceptT.run, ExceptT.lift, bind, ExceptT.bind, ExceptT.bindCont, StateT.run,
    pure, ExceptT.pure, ExceptT.mk, StateT.bind, StateT.pure, modify, modifyGet,
    MonadStateOf.modifyGet, StateT.modifyGet, Functor.map, StateT.map, throw, throwThe,
    MonadExceptOf.throw]

theorem create_api_stages_remove_patches_self (l : List String) :
    create_api_stages_remove_patches l l = [] := by
  unfold create_api_stages_remove_patches
  rw [filter_not_contains_self]
  rfl

theorem usage_plan_patches_nil (p : UsagePlanParams) (up : UsagePlan)
    (hstages : p.api_stages.map format_stage = (up.apiStages.getD []).map format_stage)
    (hdesc : is_default_value_str p.description = true ∨ up.description = some p.description)
    (hthr : (up.throttle = some (Throttle.mk (some p.throttle_burst_limit)
                (some p.throttle_rate_limit))
              ∧ is_default_value_int p.throttle_burst_limit = false
              ∧ is_default_value_int p.throttle_rate_limit = false)
           ∨ (up.throttle = none
              ∧ is_default_value_int p.throttle_burst_limit = true
              ∧ is_default_value_int p.throttle_rate_limit = true))
    (hquo : (up.quota = some (Quota.mk (some p.quota_limit) (some p.quota_offset)
                (some p.quota_period))
              ∧ is_default_value_int p.quota_limit = false
              ∧ is_default_value_int p.quota_offset = false
              ∧ is_default_value_str p.quota_period = false)
           ∨ (up.quota = none
              ∧ is_default_value_int p.quota_limit = true
              ∧ is_default_value_int p.quota_offset = true
              ∧ is_default_value_str p.quota_period = true)) :
    usage_plan_create_patches p up = [] := by
  unfold usage_plan_create_patches
  rw [hstages]
  have hd : patch_field_str "description" p.description up.description = [] :=
    patch_field_str_nil _ _ _ (by tauto)
  rcases hthr with ⟨ht, hb, hr⟩ | ⟨ht, hb, hr⟩ <;>
    rcases hquo with ⟨hq, hql, hqo, hqp⟩ | ⟨hq, hql, hqo, hqp⟩ <;>
    simp [create_api_stages_remove_patches_self, filter_not_contains_self,
      ht, hq, hb, hr, hql, hqo, hqp, all_defaults, hd,
      patch_field_int_nil, patch_field_str_nil, Option.bind]

theorem ensure_usage_plan_present_noop (p : UsagePlanParams) (up c u : UsagePlan)
    (hstages : p.api_stages.map format_stage = (up.apiStages.getD []).map format_stage)
    (hdesc : is_default_value_str p.description = true ∨ up.description = some p.description)
    (hthr : (up.throttle = some (Throttle.mk (some p.throttle_burst_limit)
                (some p.throttle_rate_limit))
              ∧ is_default_value_int p.throttle_burst_limit = false
              ∧ is_default_value_int p.throttle_rate_limit = false)
           ∨ (up.throttle = none
              ∧ is_default_value_int p.throttle_burst_limit = true
              ∧ is_default_value_int p.throttle_rate_limit = true))
    (hquo : (up.quota = some (Quota.mk (some p.quota_limit) (some p.quota_offset)
                (some p.quota_period))
              ∧ is_default_value_int p.quota_limit = false
              ∧ is_default_value_int p.quota_offset = false
              ∧ is_default_value_str p.quota_period = false)
           ∨ (up.quota = none
              ∧ is_default_value_int p.quota_limit = true
              ∧ is_default_value_int p.quota_offset = true
              ∧ is_default_value_str p.quota_period = true)) :
    runEff (ensure_usage_plan_present p false (.ok (some up)) c u) = (.ok (false, up), []) := by
  simp [runEff, ensure_usage_plan_present, liftExcept,
    usage_plan_patches_nil p up hstages hdesc hthr hquo,
    emitCall, ExceptT.run, ExceptT.lift, bind, ExceptT.bind, ExceptT.bindCont, StateT.run,
    pure, ExceptT.pure, ExceptT.mk, StateT.bind, StateT.pure, modify, modifyGet,
    MonadStateOf.modifyGet, StateT.modifyGet, Functor.map, StateT.map, throw, throwThe,
    MonadExceptOf.throw]

theorem ensure_usage_plan_key_present_noop (check_mode : Bool)
    (a b t : String) (k c : UsagePlanKey) :
    runEff (ensure_usage_plan_key_present check_mode a b t (.ok k) c) =
      (.ok (false, k), []) := by
  cases check_mode <;> rfl

theorem vpc_link_patches_nil (p : VpcLinkParams) (l : VpcLink)
    (h1 : ∀ s, (some p.name : Option String) = some s → s ≠ "" → l.name = some s)
    (h2 : ∀ s, p.description = some s → s ≠ "" → l.description = some s)
    (h3 : ∀ ta, p.target_arns = some ta → ta ≠ [] → l.targetArns = some ta) :
    vpc_link_patches p l = .ok [] := by
  unfold vpc_link_patches
  rw [replacePatchStrict_nil "/name" "name" (some p.name) l.name h1,
    replacePatchGet_nil "/description" p.description l.description h2]
  rcases hta : p.target_arns with _ | ta
  · rfl
  · by_cases he : ta = []
    · simp [he, bind, Except.bind, pure, Except.pure]
    · simp [he, h3 ta hta he, getKey, bind, Except.bind, pure, Except.pure]

theorem ensure_vpc_link_present_noop (p : VpcLinkParams) (l c u : VpcLink) (st : String)
    (hst : l.status = some st) (hst1 : st ≠ "DELETING") (hst2 : st ≠ "FAILED")
    (h1 : ∀ s, (some p.name : Option String) = some s → s ≠ "" → l.name = some s)
    (h2 : ∀ s, p.description = some s → s ≠ "" → l.description = some s)
    (h3 : ∀ ta, p.target_arns = some ta → ta ≠ [] → l.targetArns = some ta) :
    runEff (ensure_vpc_link_present p false (.ok (some l)) c u) = (.ok (false, l), []) := by
  simp [runEff, ensure_vpc_link_present, liftExcept,
    vpc_link_patches_nil p l h1 h2 h3, hst, hst1, hst2, getKey,
    emitCall, ExceptT.run, ExceptT.lift, bind, ExceptT.bind, ExceptT.bindCont, StateT.run,
    pure, ExceptT.pure, ExceptT.mk, StateT.bind, StateT.pure, modify, modifyGet,
    MonadStateOf.modifyGet, StateT.modifyGet, Functor.map, StateT.map, throw, throwThe,
    MonadExceptOf.throw]

theorem match_option_self {α : Type} (o : Option α) :
    (match o with | some y => some y | none => none) = o := by
  cases o <;> rfl

theorem replacePatchStrict_isOk (path k : String) (new cur : Option String)
    (h : ∀ s, new = some s → s ≠ "" → ∃ t, cur = some t) :
    ∃ l, replacePatchStrict path k new cur = .ok l := by
  unfold replacePatchStrict
  rcases hn : new with _ | s
  · exact ⟨[], rfl⟩
  · by_cases hs : s = ""
    · exact ⟨[], by simp [hs, pure, Except.pure]⟩
    · obtain ⟨t, ht⟩ := h s hn hs
      exact ⟨if s ≠ t then [Patch.mk "replace" path (some s)] else [],
        by simp [hs, ht, getKey, bind, Except.bind, pure, Except.pure]⟩

theorem replacePatchStrict_shape (path k : String) (new cur : Option String)
    (l : List Patch) (h : replacePatchStrict path k new cur = .ok l) :
    l = [] ∨ ∃ s, l = [Patch.mk "replace" path (some s)] := by
  unfold replacePatchStrict at h
  rcases hn : new with _ | s <;> rw [hn] at h
  · simp [pure, Except.pure] at h
    exact Or.inl h
  · by_cases hs : s = ""
    · simp [hs, pure, Except.pure] at h
      exact Or.inl h
    · rcases hc : cur with _ | t <;> rw [hc] at h <;>
        simp [hs, getKey, bind, Except.bind, pure, Except.pure] at h
      by_cases hst : s = t
      · simp [hst] at h
        exact Or.inl h
      · rw [if_neg (by simp [hst])] at h
        exact Or.inr ⟨s, h.symm⟩

theorem replacePatchStrict_path (path k : String) (new cur : Option String)
    (l : List Patch) (h : replacePatchStrict path k new cur = .ok l) :
    ∀ pa ∈ l, pa.path = path := by
  rcases replacePatchStrict_shape path k new cur l h with h0 | ⟨s, h0⟩ <;> subst h0 <;> simp

theorem replacePatchGet_shape (path : String) (new cur : Option String) :
    replacePatchGet path new cur = [] ∨
      ∃ s, replacePatchGet path new cur = [Patch.mk "replace" path (some s)] := by
  unfold replacePatchGet
  rcases new with _ | s
  · exact Or.inl rfl
  · by_cases hs : s ≠ "" ∧ some s ≠ cur
    · exact Or.inr ⟨s, by simp [hs]⟩
    · exact Or.inl (by simp [hs])

theorem replacePatchGet_path (path : String) (new cur : Option String) :
    ∀ pa ∈ replacePatchGet path new cur, pa.path = path := by
  rcases replacePatchGet_shape path new cur with h0 | ⟨s, h0⟩ <;> rw [h0] <;> simp

theorem api_key_patches_value_fails (p : ApiKeyParams) (key : ApiKey) (v cv : String)
    (hv : p.value = some v) (hve : v ≠ "") (hcv : key.value = some cv) (hne : v ≠ cv)
    (hn : ∀ s, p.name = some s → s ≠ "" → ∃ t, key.name = some t)
    (hd : ∀ s, p.description = some s → s ≠ "" → ∃ t, key.description = some t)
    (he : ∃ b, key.enabled = some b) :
    api_key_patches p key = .error (.failJson "Cannot change value after creation") := by
  obtain ⟨l₁, h₁⟩ := replacePatchStrict_isOk "/name" "name" p.name key.name hn
  obtain ⟨l₂, h₂⟩ := replacePatchStrict_isOk "/description" "description" p.description
    key.description hd
  obtain ⟨b, hb⟩ := he
  unfold api_key_patches
  simp [h₁, h₂, hb, hv, hve, hcv, hne, getKey, bind, Except.bind, pure, Except.pure,
    throw, throwThe, MonadExceptOf.throw]

theorem api_key_patches_paths (p : ApiKeyParams) (key : ApiKey) (ps : List Patch)
    (h : api_key_patches p key = .ok ps) :
    ∀ pa ∈ ps, pa.path = "/name" ∨ pa.path = "/description" ∨ pa.path = "/enabled" := by
  unfold api_key_patches at h
  rcases h₁ : replacePatchStrict "/name" "name" p.name key.name with e₁ | l₁ <;>
    rw [h₁] at h <;> simp only [bind, Except.bind] at h
  · cases h
  rcases h₂ : replacePatchStrict "/description" "description" p.description key.description
      with e₂ | l₂ <;> rw [h₂] at h <;> simp only [bind, Except.bind] at h
  · cases h
  rcases hb : key.enabled with _ | b <;> rw [hb] at h <;>
    simp only [getKey, bind, Except.bind] at h
  · cases h
  have hps : ps = l₁ ++
      (l₂ ++
        if p.enabled = b then []
        else [Patch.mk "replace" "/enabled" (some (pyStrBool p.enabled))]) := by
    rcases hv : p.value with _ | v <;> rw [hv] at h
    · simp [pure, Except.pure] at h
      exact h.symm
    · by_cases hve : v = ""
      · simp [hve, pure, Except.pure] at h
        exact h.symm
      · rcases hcv : key.value with _ | cv <;> rw [hcv] at h <;>
          simp only [hve, if_neg, ite_true, ite_false, getKey, bind, Except.bind,
            if_true] at h
        · simp [hve] at h
        · by_cases hne : v = cv
          · simp [hve, hne, pure, Except.pure] at h
            exact h.symm
          · simp [hve, hne, throw, throwThe, MonadExceptOf.throw] at h
  intro pa hpa
  rw [hps] at hpa
  rcases List.mem_append.mp hpa with hpa₁ | hpa'
  · exact Or.inl (replacePatchStrict_path _ _ _ _ _ h₁ pa hpa₁)
  rcases List.mem_append.mp hpa' with hpa₂ | hpa₃
  · exact Or.inr (Or.inl (replacePatchStrict_path _ _ _ _ _ h₂ pa hpa₂))
  · right; right
    by_cases hben : p.enabled = b <;> simp [hben] at hpa₃
    simp [hpa₃]

theorem vpc_link_patches_target_fails (p : VpcLinkParams) (l : VpcLink)
    (ta cv : List String)
    (hta : p.target_arns = some ta) (hne0 : ta ≠ []) (hcv : l.targetArns = some cv)
    (hne : ta ≠ cv)
    (hn : ∀ s, (some p.name : Option String) = some s → s ≠ "" → ∃ t, l.name = some t) :
    vpc_link_patches p l = .error (.failJson "Cannot change target ARNs after creation") := by
  obtain ⟨l₁, h₁⟩ := replacePatchStrict_isOk "/name" "name" (some p.name) l.name hn
  unfold vpc_link_patches
  simp [h₁, hta, hne0, hcv, hne, getKey, bind, Except.bind, pure, Except.pure,
    throw, throwThe, MonadExceptOf.throw]

theorem vpc_link_patches_paths (p : VpcLinkParams) (l : VpcLink) (ps : List Patch)
    (h : vpc_link_patches p l = .ok ps) :
    ∀ pa ∈ ps, pa.path = "/name" ∨ pa.path = "/description" := by
  unfold vpc_link_patches at h
  rcases h₁ : replacePatchStrict "/name" "name" (some p.name) l.name with e₁ | l₁ <;>
    rw [h₁] at h <;> simp only [bind, Except.bind] at h
  · cases h
  have hps : ps = l₁ ++ replacePatchGet "/description" p.description l.description := by
    rcases hta : p.target_arns with _ | ta <;> rw [hta] at h
    · simp [pure, Except.pure] at h
      exact h.symm
    · by_cases hne0 : ta = []
      · simp [hne0, pure, Except.pure] at h
        exact h.symm
      · rcases hcv : l.targetArns with _ | cv <;> rw [hcv] at h <;>
          simp only [hne0, getKey, bind, Except.bind] at h
        · simp [hne0] at h
        · by_cases hne : ta = cv
          · simp [hne0, hne, pure, Except.pure] at h
            exact h.symm
          · simp [hne0, hne, throw, throwThe, MonadExceptOf.throw] at h
  intro pa hpa
  rw [hps] at hpa
  rcases List.mem_append.mp hpa with hpa₁ | hpa₂
  · exact Or.inl (replacePatchStrict_path _ _ _ _ _ h₁ pa hpa₁)
  · exact Or.inr (replacePatchGet_path _ _ _ pa hpa₂)

/-! ### Claim theorems -/

/-- C1: the claim states that with state `present`, not in check mode, and no
existing mapping, the module issues a create call (with domain name, rest api
id, base path and stage) and returns the created mapping with changed=True.
The code cannot do this: the lookup in `main` runs outside any try/except, so
the `NotFoundException` raised for a missing mapping already crashes the
module; and even when `ensure_base_path_mapping_present` is entered with a
falsy mapping it executes `raise ValueError('creating!')` first, so no create
call is ever issued (first conjunct: the lookup crash; second conjunct: the
ensure function raises with an empty call trace). -/
theorem c1_base_path_mapping_create_never_runs :
    bpm_main_lookup (SdkResp.clientError "NotFoundException"
        "An error occurred (NotFoundException) when calling the GetBasePathMapping operation")
      = .error (.uncaughtClientError "NotFoundException")
  ∧ runEff (ensure_base_path_mapping_present
        (BpmParams.mk "api.example.com" (some "abc123") none "(none)" (some "dev"))
        false none (some "abc123") (BasePathMapping.mk none none none))
      = (.error (.valueError "creating!"), []) :=
  ⟨rfl, rfl⟩

/-- C2: the claim states that `remove /throttle` is emitted only when BOTH
throttle parameters are at their defaults, and `remove /quota` only when all
three quota parameters are.  The inner helper `all_defaults` folds the flags
with `or`, so a single defaulted parameter suffices: with
`throttle_burst_limit=100` set and `throttle_rate_limit` at its default the
existing throttle section is removed, and with `quota_limit=100` set and the
other quota parameters at their defaults the quota section is removed. -/
theorem c2_usage_plan_partial_section_removed :
    Patch.mk "remove" "/throttle" none ∈
      usage_plan_create_patches
        { name := "plan5000", throttle_burst_limit := 100 }
        { id := "up123", name := some "plan5000",
          throttle := some (Throttle.mk (some 10) (some 5)) }
  ∧ Patch.mk "remove" "/quota" none ∈
      usage_plan_create_patches
        { name := "plan5000", quota_limit := 100 }
        { id := "up123", name := some "plan5000",
          quota := some (Quota.mk (some 10) (some 0) (some "DAY")) } :=
  ⟨by decide, by decide⟩

/-- C3: the claim states that in every module a `NotFoundException` during the
lookup yields `None` and every other SDK error is a module failure, with no
SDK error escaping unhandled.  The api_key lookup does behave this way (first
conjunct), but in `apigw_base_path_mapping` the lookup runs in `main` before
the try block, so the `NotFoundException` raised when the mapping does not
exist escapes the module as an uncaught `ClientError` (second conjunct). -/
theorem c3_base_path_mapping_lookup_unhandled :
    (find_api_key { name := some "testkey5000" } (SdkResp.ok { id := "unused" })
        (SdkResp.clientError "NotFoundException"
          "An error occurred (NotFoundException) when calling the GetApiKeys operation")).1
      = .ok none
  ∧ bpm_main_lookup (SdkResp.clientError "NotFoundException"
        "An error occurred (NotFoundException) when calling the GetBasePathMapping operation")
      = .error (.uncaughtClientError "NotFoundException") :=
  ⟨rfl, rfl⟩

/-- C5: the claim states that every module with state `absent` returns
changed=False with no delete when nothing is found, and issues a delete with
changed=True when a resource is found.  The api_key module does (first two
conjuncts), but with a found resource the vpc_link module evaluates
`vpc_link.vpc_link_id` — an attribute access on a dict — raising
`AttributeError` before any delete call, and the base_path_mapping module
calls the undefined name `backoff_delete_usage_plan_key`, raising `NameError`;
in both modules no delete is ever issued. -/
theorem c5_absent_delete_crashes :
    runEff (ensure_api_key_absent false (.ok (some { id := "key24601" })))
      = (.ok true, [Call.deleteApiKey "key24601"])
  ∧ runEff (ensure_api_key_absent false (.ok none)) = (.ok false, [])
  ∧ runEff (ensure_vpc_link_absent false
        (.ok (some { id := "vl123", name := some "mylink", status := some "AVAILABLE" })))
      = (.error (.attributeError "dict object has no attribute vpc_link_id"), [])
  ∧ runEff (ensure_base_path_mapping_absent false
        (some { basePath := some "(none)", restApiId := some "abc123" }))
      = (.error (.nameError "backoff_delete_usage_plan_key"), []) :=
  ⟨rfl, rfl, rfl, rfl⟩

/-- C8: the claim states that in check mode no mutating call is issued while
the changed flag is still computed and reported.  No mutating call is indeed
issued, but in the create path of `ensure_api_key_present` (and likewise
rest_api, usage_plan, usage_plan_key and vpc_link) check mode skips the create
and then runs `api_key.pop('ResponseMetadata', None)` on `None`, so the module
crashes with `AttributeError` and reports nothing (first conjunct), while the
same run without check mode reports changed=True (second conjunct); only the
domain_name module returns early in this situation (third conjunct). -/
theorem c8_check_mode_create_crashes :
    runEff (ensure_api_key_present { name := some "testkey5000" } true (.ok none)
        { id := "newkey", name := some "testkey5000", enabled := some false }
        { id := "newkey" })
      = (.error (.attributeError "NoneType object has no attribute pop"), [])
  ∧ runEff (ensure_api_key_present { name := some "testkey5000" } false (.ok none)
        { id := "newkey", name := some "testkey5000", enabled := some false }
        { id := "newkey" })
      = (.ok (true, { id := "newkey", name := some "testkey5000", enabled := some false }),
         [Call.createApiKey (some "testkey5000") false false none none])
  ∧ runEff (ensure_usage_plan_present { name := "plan5000" } true (.ok none) { id := "up1" }
        { id := "up1" })
      = (.error (.attributeError "NoneType object has no attribute pop"), [])
  ∧ runEff (ensure_domain_name_present
        { name := "d.example.com", cert_arn := some "arn:aws:acm:cert1" } true "us-east-1"
        none none { certificateArn := some "arn:aws:acm:cert1" }
        { certificateArn := some "arn:aws:acm:cert1" })
      = (.ok (true, none), []) :=
  ⟨rfl, rfl, rfl, rfl⟩

/-- C4: the claim asserts that every module's present operation is idempotent
— a resource whose fields already equal the desired (set) parameter values
yields an empty patch list, no update call and changed=False, so a second run
is a no-op.  The usage_plan module violates this: with an existing plan whose
stored throttle burst limit already equals the desired value and the rate
limit parameter at its default, `create_patches` emits `remove /throttle`
(through the `or`-fold of `all_defaults`, the C2 slip), issues an update and
reports changed=True (first two conjuncts); once the throttle section is
gone, the next run emits `add /throttle/burstLimit` and reports changed=True
again (last two conjuncts) — repeated runs oscillate instead of converging
to a no-op.  The other six present operations are idempotent (the
`ensure_*_present_noop` lemmas above). -/
theorem c4_usage_plan_partial_throttle_not_idempotent :
    usage_plan_create_patches usagePlanPartParamsW usagePlanPartW
      = [Patch.mk "remove" "/throttle" none]
  ∧ runEff (ensure_usage_plan_present usagePlanPartParamsW false
        (.ok (some usagePlanPartW)) { id := "c4c" } { id := "c4u" })
      = (.ok (true, { id := "c4u" }),
         [Call.updateUsagePlan "up123" [Patch.mk "remove" "/throttle" none]])
  ∧ usage_plan_create_patches usagePlanPartParamsW usagePlanPartAfterW
      = [Patch.mk "add" "/throttle/burstLimit" (some "100")]
  ∧ runEff (ensure_usage_plan_present usagePlanPartParamsW false
        (.ok (some usagePlanPartAfterW)) { id := "c4d" } { id := "c4v" })
      = (.ok (true, { id := "c4v" }),
         [Call.updateUsagePlan "up123" [Patch.mk "add" "/throttle/burstLimit" (some "100")]]) :=
  ⟨rfl, rfl, rfl, rfl⟩

/-- C9: immutable fields are never patched.  For the api_key module: a set
`value` differing from the stored one makes the module fail with "Cannot
change value after creation" before any update call (empty trace), and the
patch builder never produces a patch whose path is `/value`.  For the
vpc_link module: a set, non-empty `target_arns` differing from the stored
ARNs makes the module fail with "Cannot change target ARNs after creation"
before any update call, and the patch builder never produces a patch touching
the target ARNs. -/
theorem c9_immutable_fields :
    (∀ (p : ApiKeyParams) (key c u : ApiKey) (cm : Bool) (v cv : String),
      p.value = some v → v ≠ "" → key.value = some cv → v ≠ cv →
      (∀ s, p.name = some s → s ≠ "" → ∃ t, key.name = some t) →
      (∀ s, p.description = some s → s ≠ "" → ∃ t, key.description = some t) →
      (∃ b, key.enabled = some b) →
      runEff (ensure_api_key_present p cm (.ok (some key)) c u)
        = (.error (.failJson "Cannot change value after creation"), []))
  ∧ (∀ (p : ApiKeyParams) (key : ApiKey) (ps : List Patch),
      api_key_patches p key = .ok ps → ∀ pa ∈ ps, pa.path ≠ "/value")
  ∧ (∀ (p : VpcLinkParams) (l c u : VpcLink) (cm : Bool) (ta cv : List String),
      p.target_arns = some ta → ta ≠ [] → l.targetArns = some cv → ta ≠ cv →
      (∀ s, (some p.name : Option String) = some s → s ≠ "" → ∃ t, l.name = some t) →
      runEff (ensure_vpc_link_present p cm (.ok (some l)) c u)
        = (.error (.failJson "Cannot change target ARNs after creation"), []))
  ∧ (∀ (p : VpcLinkParams) (l : VpcLink) (ps : List Patch),
      vpc_link_patches p l = .ok ps → ∀ pa ∈ ps, pa.path ≠ "/targetArns") := by
  refine ⟨?_, ?_, ?_, ?_⟩
  · intro p key c u cm v cv hv hve hcv hne hn hd he
    simp [runEff, ensure_api_key_present, liftExcept,
      api_key_patches_value_fails p key v cv hv hve hcv hne hn hd he,
      emitCall, ExceptT.run, ExceptT.lift, bind, ExceptT.bind, ExceptT.bindCont, StateT.run,
      pure, ExceptT.pure, ExceptT.mk, StateT.bind, StateT.pure, modify, modifyGet,
      MonadStateOf.modifyGet, StateT.modifyGet, Functor.map, StateT.map, throw, throwThe,
      MonadExceptOf.throw]
  · intro p key ps h pa hpa
    rcases api_key_patches_paths p key ps h pa hpa with h0 | h0 | h0 <;> simp [h0]
  · intro p l c u cm ta cv hta hne0 hcv hne hn
    simp [runEff, ensure_vpc_link_present, liftExcept,
      vpc_link_patches_target_fails p l ta cv hta hne0 hcv hne hn,
      emitCall, ExceptT.run, ExceptT.lift, bind, ExceptT.bind, ExceptT.bindCont, StateT.run,
      pure, ExceptT.pure, ExceptT.mk, StateT.bind, StateT.pure, modify, modifyGet,
      MonadStateOf.modifyGet, StateT.modifyGet, Functor.map, StateT.map, throw, throwThe,
      MonadExceptOf.throw]
  · intro p l ps h pa hpa
    rcases vpc_link_patches_paths p l ps h pa hpa with h0 | h0 <;> simp [h0]

/-- C9 witness: the immutability theorem applied to concrete inputs — a value
change attempt on an existing api key, the api_key patch list of a rename, a
target-ARN change attempt on an existing vpc link, and the vpc_link patch
list of a rename. -/
theorem c9_immutable_fields_witness :
    runEff (ensure_api_key_present apiKeyValueChangeParamsW false
        (.ok (some apiKeyValueChangeKeyW)) { id := "c1" } { id := "c2" })
      = (.error (.failJson "Cannot change value after creation"), [])
  ∧ (∀ pa ∈ [Patch.mk "replace" "/name" (some "testkey5000")], pa.path ≠ "/value")
  ∧ runEff (ensure_vpc_link_present vpcLinkTargetChangeParamsW false
        (.ok (some vpcLinkTargetChangeLinkW)) { id := "c3" } { id := "c4" })
      = (.error (.failJson "Cannot change target ARNs after creation"), [])
  ∧ (∀ pa ∈ [Patch.mk "replace" "/name" (some "mylink")], pa.path ≠ "/targetArns") := by
  refine ⟨?_, ?_, ?_, ?_⟩
  · exact c9_immutable_fields.1 apiKeyValueChangeParamsW apiKeyValueChangeKeyW _ _ false
      "newvalue" "oldvalue" rfl (by decide) rfl (by decide)
      (by simp [apiKeyValueChangeParamsW, apiKeyValueChangeKeyW])
      (by simp [apiKeyValueChangeParamsW])
      ⟨false, rfl⟩
  · exact c9_immutable_fields.2.1 apiKeyParamsW apiKeyRenameKeyW
      [Patch.mk "replace" "/name" (some "testkey5000")] rfl
  · exact c9_immutable_fields.2.2.1 vpcLinkTargetChangeParamsW vpcLinkTargetChangeLinkW _ _
      false ["arn:aws:elb:new"] ["arn:aws:elb:old"] rfl (by decide) rfl (by decide)
      (by simp [vpcLinkTargetChangeParamsW, vpcLinkTargetChangeLinkW])
  · exact c9_immutable_fields.2.2.2 vpcLinkParamsW vpcLinkRenameLinkW
      [Patch.mk "replace" "/name" (some "mylink")] rfl

/-- C6 counterexample: the claim asserts in particular that the VPC link
module resolves a supplied `vpc_link_id` by a direct `get_vpc_link` call.  But
`vpc_link_id` is not among the declared parameters of `apigw_vpc_link` (first
conjunct), so `module.params.get('vpc_link_id')` is always `None` and the
lookup always goes through `get_vpc_links`: even with the get oracle primed to
return a different link, `find_vpc_link` issues only the listing call and
resolves by name (second conjunct). -/
theorem c6_counterexample_vpc_link_id_not_a_parameter :
    "vpc_link_id" ∉ vpc_link_argument_spec_names
  ∧ find_vpc_link { name := "mylink" }
      (SdkResp.ok { id := "vl-from-get", name := some "other" }) (SdkResp.ok [vpcLinkW])
      = (.ok (some vpcLinkW), [Lookup.getVpcLinks]) :=
  ⟨by decide, rfl⟩

/-- C6 amended: the api_key and rest_api modules — the ones that accept both a
name and an id parameter — resolve by id via a direct get call when the id is
supplied (truthy), otherwise by the last exact name match over the listing,
and fail with an error message when neither name nor id is provided.  The VPC
link module declares no `vpc_link_id` parameter, so its id branch is
unreachable: it always resolves by the last exact name match over
`get_vpc_links`, and fails when the name is empty. -/
theorem c6_amended_lookup_resolution :
    (∀ (p : ApiKeyParams) (k : ApiKey) (lr : SdkResp (List ApiKey)) (keyId : String),
      p.id = some keyId → keyId ≠ "" →
      find_api_key p (SdkResp.ok k) lr = (.ok (some k), [Lookup.getApiKey keyId]))
  ∧ (∀ (p : ApiKeyParams) (g : SdkResp ApiKey) (items : List ApiKey) (n : String),
      (p.id = none ∨ p.id = some "") → p.name = some n → n ≠ "" →
      find_api_key p g (SdkResp.ok items)
        = (.ok (lastMatch (fun l => l.name = some n) items), [Lookup.getApiKeys n]))
  ∧ (∀ (p : ApiKeyParams) (g : SdkResp ApiKey) (lr : SdkResp (List ApiKey)),
      (p.id = none ∨ p.id = some "") → (p.name = none ∨ p.name = some "") →
      find_api_key p g lr = (.error (.failJson "Api key name or id is required"), []))
  ∧ (∀ (p : RestApiParams) (api : RestApi) (lr : SdkResp (List RestApi)) (apiId : String),
      p.id = some apiId → apiId ≠ "" →
      find_rest_api p none (SdkResp.ok api) lr = (.ok (some api), [Lookup.getRestApi apiId]))
  ∧ (∀ (p : RestApiParams) (g : SdkResp RestApi) (items : List RestApi) (n : String),
      (p.id = none ∨ p.id = some "") → p.name = some n → n ≠ "" →
      find_rest_api p none g (SdkResp.ok items)
        = (.ok (lastMatch (fun l => l.name = some n) items), [Lookup.getRestApis]))
  ∧ (∀ (p : RestApiParams) (g : SdkResp RestApi) (lr : SdkResp (List RestApi)),
      (p.id = none ∨ p.id = some "") → (p.name = none ∨ p.name = some "") →
      find_rest_api p none g lr = (.error (.failJson "Rest api name or id is required"), []))
  ∧ (∀ (p : VpcLinkParams) (g : SdkResp VpcLink) (items : List VpcLink),
      p.name ≠ "" →
      find_vpc_link p g (SdkResp.ok items)
        = (.ok (lastMatch (fun l => l.name = some p.name) items), [Lookup.getVpcLinks]))
  ∧ (∀ (p : VpcLinkParams) (g : SdkResp VpcLink) (lr : SdkResp (List VpcLink)),
      p.name = "" →
      find_vpc_link p g lr = (.error (.failJson "VPC link name or id is required"), [])) := by
  refine ⟨?_, ?_, ?_, ?_, ?_, ?_, ?_, ?_⟩
  · intro p k lr keyId hid hne
    unfold find_api_key
    rw [hid]
    simp [hne]
  · intro p g items n hid hn hne
    rcases hid with hid | hid <;>
      simp only [find_api_key, find_api_key.find_api_key_by_name, hid, hn,
        ne_eq, not_true_eq_false, if_false, ite_false, reduceIte] <;>
      rw [if_neg hne] <;>
      rw [foldl_lastMatch (fun l => l.name = some n) items none] <;>
      cases lastMatch (fun l => l.name = some n) items <;> simp
  · intro p g lr hid hn
    unfold find_api_key find_api_key.find_api_key_by_name
    rcases hid with hid | hid <;> rcases hn with hn | hn <;> rw [hid, hn] <;> simp
  · intro p api lr apiId hid hne
    unfold find_rest_api find_rest_api.find_rest_api_main
    rw [hid]
    simp [hne, truthyStr]
  · intro p g items n hid hn hne
    rcases hid with hid | hid <;>
      simp only [find_rest_api, find_rest_api.find_rest_api_main, hid, hn, truthyStr,
        ne_eq, not_true_eq_false, if_false, ite_false, reduceIte] <;>
      rw [if_neg hne] <;>
      rw [foldl_lastMatch (fun l => l.name = some n) items none] <;>
      cases lastMatch (fun l => l.name = some n) items <;> simp
  · intro p g lr hid hn
    unfold find_rest_api find_rest_api.find_rest_api_main
    rcases hid with hid | hid <;> rcases hn with hn | hn <;> rw [hid, hn] <;>
      simp [truthyStr]
  · intro p g items hne
    simp only [find_vpc_link, find_vpc_link.find_vpc_link_by_name,
      vpc_link_param_vpc_link_id]
    rw [if_neg hne]
    rw [foldl_lastMatch (fun l => l.name = some p.name) items none]
    cases lastMatch (fun l => l.name = some p.name) items <;> simp
  · intro p g lr hn
    simp only [find_vpc_link, find_vpc_link.find_vpc_link_by_name,
      vpc_link_param_vpc_link_id]
    simp [hn]

/-- C6 witness: the amended resolution theorem applied to concrete inputs for
each of its eight cases. -/
theorem c6_amended_lookup_resolution_witness :
    find_api_key { name := some "testkey5000", id := some "key24601" } (SdkResp.ok apiKeyW)
        (SdkResp.ok [])
      = (.ok (some apiKeyW), [Lookup.getApiKey "key24601"])
  ∧ find_api_key apiKeyParamsW (SdkResp.ok { id := "g1" })
        (SdkResp.ok [apiKeyRenameKeyW, apiKeyW])
      = (.ok (lastMatch (fun l => l.name = some "testkey5000")
          [apiKeyRenameKeyW, apiKeyW]), [Lookup.getApiKeys "testkey5000"])
  ∧ find_api_key {} (SdkResp.ok { id := "g2" }) (SdkResp.ok [])
      = (.error (.failJson "Api key name or id is required"), [])
  ∧ find_rest_api { id := some "api42" } none (SdkResp.ok restApiW) (SdkResp.ok [])
      = (.ok (some restApiW), [Lookup.getRestApi "api42"])
  ∧ find_rest_api restApiParamsW none (SdkResp.ok { id := "g3" }) (SdkResp.ok [restApiW])
      = (.ok (lastMatch (fun l => l.name = some "example-api") [restApiW]),
         [Lookup.getRestApis])
  ∧ find_rest_api {} none (SdkResp.ok { id := "g4" }) (SdkResp.ok [])
      = (.error (.failJson "Rest api name or id is required"), [])
  ∧ find_vpc_link vpcLinkParamsW (SdkResp.ok { id := "g5" }) (SdkResp.ok [vpcLinkW])
      = (.ok (lastMatch (fun l => l.name = some "mylink") [vpcLinkW]),
         [Lookup.getVpcLinks])
  ∧ find_vpc_link { name := "" } (SdkResp.ok { id := "g6" }) (SdkResp.ok [])
      = (.error (.failJson "VPC link name or id is required"), []) := by
  refine ⟨?_, ?_, ?_, ?_, ?_, ?_, ?_, ?_⟩
  · exact c6_amended_lookup_resolution.1 _ apiKeyW _ "key24601" rfl (by decide)
  · exact c6_amended_lookup_resolution.2.1 apiKeyParamsW _ _ "testkey5000" (Or.inl rfl)
      rfl (by decide)
  · exact c6_amended_lookup_resolution.2.2.1 {} _ _ (Or.inl rfl) (Or.inl rfl)
  · exact c6_amended_lookup_resolution.2.2.2.1 _ restApiW _ "api42" rfl (by decide)
  · exact c6_amended_lookup_resolution.2.2.2.2.1 restApiParamsW _ _ "example-api"
      (Or.inl rfl) rfl (by decide)
  · exact c6_amended_lookup_resolution.2.2.2.2.2.1 {} _ _ (Or.inl rfl) (Or.inl rfl)
  · exact c6_amended_lookup_resolution.2.2.2.2.2.2.1 vpcLinkParamsW _ _ (by decide)
  · exact c6_amended_lookup_resolution.2.2.2.2.2.2.2 { name := "" } _ _ rfl

/-- C7 counterexample: the claim predicts an `add` operation when the current
value is missing, but the domain_name module emits `replace`
unconditionally: for a domain with no stored `securityPolicy` and a desired
`security_policy`, the computed patch is a `replace`, and the `add` operation
the claim predicts is not in the list. -/
theorem c7_counterexample_replace_on_missing_current :
    domain_name_patches domainSecPolicyParamsW domainNoSecPolicyW
      = .ok [Patch.mk "replace" "/securityPolicy" (some "TLS_1_2")]
  ∧ Patch.mk "add" "/securityPolicy" (some "TLS_1_2")
      ∉ [Patch.mk "replace" "/securityPolicy" (some "TLS_1_2")] :=
  ⟨rfl, by decide⟩

/-- C7 amended: for an existing resource, a scalar-field JSON-Patch operation
is generated exactly when the desired value is set and differs from the
current value, and the update call is issued exactly when the patch list is
non-empty — but the operation kind depends on the module.  The api_key and
domain_name field comparisons ("set" meaning non-None and non-empty) always
emit `replace`, also when the current value is missing (conjuncts 1 and 2,
where conjunct 1 identifies the strict-access variant with the `.get`
variant whenever the access succeeds); only the rest_api scalar loop ("set"
meaning non-None, an empty string included) distinguishes `add` (current
value missing) from `replace` (conjunct 3).  Conjuncts 4 to 6: for the
api_key, rest_api and domain_name present operations (the latter with no
tags parameter), the update call carrying exactly the computed patch list is
issued iff that list is non-empty, with changed=True iff an update was
issued. -/
theorem c7_amended_scalar_patch_rules :
    (∀ (path k : String) (new cur : Option String),
      (truthyStr new = true → cur.isSome) →
      replacePatchStrict path k new cur = .ok (replacePatchGet path new cur))
  ∧ (∀ (path : String) (new cur : Option String) (pa : Patch),
      pa ∈ replacePatchGet path new cur ↔
        ∃ s, new = some s ∧ s ≠ "" ∧ some s ≠ cur ∧ pa = Patch.mk "replace" path (some s))
  ∧ (∀ (k : String) (new old : Option String) (pa : Patch),
      pa ∈ addReplacePatch id k new old ↔
        ∃ v, new = some v ∧ some v ≠ old ∧
          pa = Patch.mk (if old = none then "add" else "replace") ("/" ++ k) (some v))
  ∧ (∀ (p : ApiKeyParams) (key c u : ApiKey) (ps : List Patch),
      api_key_patches p key = .ok ps →
      runEff (ensure_api_key_present p false (.ok (some key)) c u)
        = (if ps = [] then (.ok (false, key), [])
           else (.ok (true, u), [Call.updateApiKey key.id ps])))
  ∧ (∀ (p : RestApiParams) (api c u : RestApi) (cg : SdkResp RestApi)
        (cl : SdkResp (List RestApi)) (ps : List Patch),
      rest_api_create_patches p api = .ok ps →
      runEff (ensure_rest_api_present p false (.ok (some api)) cg cl c u)
        = (if ps = [] then (.ok (false, api), [])
           else (.ok (true, u), [Call.updateRestApi api.id ps])))
  ∧ (∀ (p : DomainParams) (d c u : DomainName) (refound : Option DomainName)
        (region : String) (ps : List Patch),
      p.tags = none → ¬(p.cert_arn = none ∧ p.cert_name = none) →
      domain_name_patches p d = .ok ps →
      runEff (ensure_domain_name_present p false region (some d) refound c u)
        = (if ps = [] then (.ok (false, some d), [])
           else (.ok (true, some u), [Call.updateDomainName p.name ps]))) := by
  refine ⟨?_, ?_, ?_, ?_, ?_, ?_⟩
  · intro path k new cur h
    rcases new with _ | s
    · rfl
    · by_cases hs : s = ""
      · simp [replacePatchStrict, replacePatchGet, hs, pure, Except.pure]
      · have hcur : cur.isSome := h (by simp [truthyStr, hs])
        rcases cur with _ | t
        · simp at hcur
        · by_cases hst : s = t <;>
            simp [replacePatchStrict, replacePatchGet, hs, hst, getKey,
              bind, Except.bind, pure, Except.pure]
  · intro path new cur pa
    rcases new with _ | s
    · simp [replacePatchGet]
    · simp only [replacePatchGet]
      by_cases h1 : s ≠ "" ∧ some s ≠ cur
      · rw [if_pos h1]
        simp only [List.mem_singleton, Option.some.injEq]
        constructor
        · intro h
          exact ⟨s, rfl, h1.1, h1.2, h⟩
        · rintro ⟨s', hs', _, _, h4⟩
          rw [← hs'] at h4
          exact h4
      · rw [if_neg h1]
        simp only [List.not_mem_nil, false_iff, not_exists, Option.some.injEq]
        rintro s' ⟨hs', h2, h3, _⟩
        rw [← hs'] at h2 h3
        exact h1 ⟨h2, h3⟩
  · intro k new old pa
    rcases new with _ | v
    · simp [addReplacePatch]
    · rcases old with _ | o
      · simp only [addReplacePatch, ne_eq, reduceCtorEq, not_false_eq_true, if_true, ite_true,
          reduceIte, List.mem_singleton, Option.some.injEq, id]
        constructor
        · intro h
          exact ⟨v, rfl, by simp, by simpa using h⟩
        · rintro ⟨v', hv', _, h4⟩
          rw [← hv'] at h4
          simpa using h4
      · by_cases hvo : v = o
        · subst hvo
          simp [addReplacePatch]
        · have hov : ¬o = v := fun h => hvo h.symm
          have hL : addReplacePatch id k (some v) (some o)
              = [Patch.mk "replace" ("/" ++ k) (some v)] := by
            simp [addReplacePatch, hvo, hov]
          rw [hL]
          simp only [List.mem_singleton, Option.some.injEq, reduceCtorEq, ite_false, if_false,
            reduceIte]
          constructor
          · intro h
            exact ⟨v, rfl, by simp [hvo], by simpa using h⟩
          · rintro ⟨v', hv', _, h4⟩
            rw [← hv'] at h4
            simpa using h4
  · intro p key c u ps h
    by_cases hps : ps = [] <;>
      simp [hps, runEff, ensure_api_key_present, liftExcept, h,
        emitCall, ExceptT.run, ExceptT.lift, bind, ExceptT.bind, ExceptT.bindCont, StateT.run,
        pure, ExceptT.pure, ExceptT.mk, StateT.bind, StateT.pure, modify, modifyGet,
        MonadStateOf.modifyGet, StateT.modifyGet, Functor.map, StateT.map, throw, throwThe,
        MonadExceptOf.throw]
  · intro p api c u cg cl ps h
    by_cases hps : ps = [] <;>
      simp [hps, runEff, ensure_rest_api_present, liftExcept, h,
        emitCall, ExceptT.run, ExceptT.lift, bind, ExceptT.bind, ExceptT.bindCont, StateT.run,
        pure, ExceptT.pure, ExceptT.mk, StateT.bind, StateT.pure, modify, modifyGet,
        MonadStateOf.modifyGet, StateT.modifyGet, Functor.map, StateT.map, throw, throwThe,
        MonadExceptOf.throw]
  · intro p d c u refound region ps htags hcert h
    by_cases hps : ps = [] <;>
      simp [hps, runEff, ensure_domain_name_present, liftExcept, h, htags, hcert,
        emitCall, ExceptT.run, ExceptT.lift, bind, ExceptT.bind, ExceptT.bindCont, StateT.run,
        pure, ExceptT.pure, ExceptT.mk, StateT.bind, StateT.pure, modify, modifyGet,
        MonadStateOf.modifyGet, StateT.modifyGet, Functor.map, StateT.map, throw, throwThe,
        MonadExceptOf.throw]

/-- C7 witness: the amended scalar-patch theorem applied to concrete inputs
for each of its six cases. -/
theorem c7_amended_scalar_patch_rules_witness :
    replacePatchStrict "/certificateArn" "certificateArn" (some "new") (some "old")
      = .ok (replacePatchGet "/certificateArn" (some "new") (some "old"))
  ∧ (Patch.mk "replace" "/securityPolicy" (some "TLS_1_2")
      ∈ replacePatchGet "/securityPolicy" (some "TLS_1_2") none ↔
        ∃ s, (some "TLS_1_2" : Option String) = some s ∧ s ≠ "" ∧ some s ≠ none ∧
          Patch.mk "replace" "/securityPolicy" (some "TLS_1_2")
            = Patch.mk "replace" "/securityPolicy" (some s))
  ∧ (Patch.mk "add" "/description" (some "d1")
      ∈ addReplacePatch id "description" (some "d1") none ↔
        ∃ v, (some "d1" : Option String) = some v ∧ some v ≠ none ∧
          Patch.mk "add" "/description" (some "d1")
            = Patch.mk (if (none : Option String) = none then "add" else "replace")
                "/description" (some v))
  ∧ runEff (ensure_api_key_present apiKeyParamsW false (.ok (some apiKeyRenameKeyW))
        { id := "c1" } { id := "u1" })
      = (if [Patch.mk "replace" "/name" (some "testkey5000")] = []
         then (.ok (false, apiKeyRenameKeyW), [])
         else (.ok (true, ({ id := "u1" } : ApiKey)),
           [Call.updateApiKey "key24601" [Patch.mk "replace" "/name" (some "testkey5000")]]))
  ∧ runEff (ensure_rest_api_present restApiParamsW false (.ok (some restApiRenameW))
        (SdkResp.ok { id := "g1" }) (SdkResp.ok []) { id := "c2" } { id := "u2" })
      = (if [Patch.mk "replace" "/name" (some "example-api")] = []
         then (.ok (false, restApiRenameW), [])
         else (.ok (true, ({ id := "u2" } : RestApi)),
           [Call.updateRestApi "api42" [Patch.mk "replace" "/name" (some "example-api")]]))
  ∧ runEff (ensure_domain_name_present domainSecPolicyParamsW false "us-east-1"
        (some domainNoSecPolicyW) none { certificateArn := some "c3" }
        { certificateArn := some "u3" })
      = (if [Patch.mk "replace" "/securityPolicy" (some "TLS_1_2")] = []
         then (.ok (false, some domainNoSecPolicyW), [])
         else (.ok (true, some ({ certificateArn := some "u3" } : DomainName)),
           [Call.updateDomainName "d.example.com"
             [Patch.mk "replace" "/securityPolicy" (some "TLS_1_2")]])) := by
  refine ⟨?_, ?_, ?_, ?_, ?_, ?_⟩
  · exact c7_amended_scalar_patch_rules.1 "/certificateArn" "certificateArn"
      (some "new") (some "old") (fun _ => rfl)
  · exact c7_amended_scalar_patch_rules.2.1 "/securityPolicy" (some "TLS_1_2") none _
  · exact c7_amended_scalar_patch_rules.2.2.1 "description" (some "d1") none _
  · exact c7_amended_scalar_patch_rules.2.2.2.1 apiKeyParamsW apiKeyRenameKeyW _ _
      [Patch.mk "replace" "/name" (some "testkey5000")] rfl
  · exact c7_amended_scalar_patch_rules.2.2.2.2.1 restApiParamsW restApiRenameW _ _ _ _
      [Patch.mk "replace" "/name" (some "example-api")] rfl
  · exact c7_amended_scalar_patch_rules.2.2.2.2.2 domainSecPolicyParamsW domainNoSecPolicyW
      _ _ _ _ [Patch.mk "replace" "/securityPolicy" (some "TLS_1_2")] rfl
      (by simp [domainSecPolicyParamsW]) rfl

end ApiGwAnsible
